import Mathlib

/-!
# ctl::ctNetAdapterAddresses

A shallow embedding of `src/ctl/ctNetAdapterAddresses.hpp`: the adapter-address
set, its forward iterator and the matching-address predicate, followed by the
theorems about them.

Conventions of the embedding

* A raw pointer is `Option Nat`: `none` is `nullptr`, `some a` is address `a`.
* Raw memory is read through typed views, `Nat → IP_ADAPTER_ADDRESSES` and
  `Nat → IP_ADAPTER_UNICAST_ADDRESS α`: what `reinterpret_cast` yields at an address.
* A `std::shared_ptr<std::vector<BYTE>>` is `Option Nat`, the identity of the
  vector object it shares (`none` is the empty shared_ptr); the vector objects
  live in a heap `Nat → vector`.
* A C++ function that can throw returns `Except Exception _`; a member function
  that mutates `*this` returns the outcome together with the object afterwards.
-/

namespace ctl

/-! ## Data model -/

/-- The two exception types the code throws: `std::out_of_range(what)` and
`ctException(code, message, location, flag)`. -/
inductive Exception where
  | out_of_range (what : String)
  | ctException (code : Nat) (message : String) (location : String) (flag : Bool)
  deriving DecidableEq, Repr

/-- The type `PIP_ADAPTER_ADDRESSES`: a raw pointer to an adapter record. -/
abbrev PIP_ADAPTER_ADDRESSES := Option Nat

/-- The type `PIP_ADAPTER_UNICAST_ADDRESS`: a raw pointer to a unicast entry. -/
abbrev PIP_ADAPTER_UNICAST_ADDRESS := Option Nat

/-- Modelled from the spec: the platform record type `IP_ADAPTER_ADDRESSES`
(declared in Iphlpapi.h, not under src/), reduced to the two fields the code
reads: the forward link and the head of the unicast-address chain. -/
structure IP_ADAPTER_ADDRESSES where
  Next : PIP_ADAPTER_ADDRESSES
  FirstUnicastAddress : PIP_ADAPTER_UNICAST_ADDRESS
  deriving DecidableEq, Repr

/-- Modelled from the spec: the platform type `IP_ADAPTER_UNICAST_ADDRESS`
(Iphlpapi.h, not under src/): a forward link and one raw socket address of
type `α`. -/
structure IP_ADAPTER_UNICAST_ADDRESS (α : Type) where
  Next : PIP_ADAPTER_UNICAST_ADDRESS
  Address : α
  deriving DecidableEq, Repr

/-- Modelled from the spec: `ctSockaddr` (ctSockaddr.hpp, not under src/), an
opaque value type wrapping one raw socket address, constructible from a raw
address structure and compared by value. -/
structure ctSockaddr (α : Type) where
  saddr : α
  deriving DecidableEq, Repr

/-- A `std::vector<BYTE>` seen from this code: the address of its first byte
and its `size()`. The bytes themselves are read through the typed memory views. -/
structure vector where
  data : Nat
  size : Nat
  deriving DecidableEq, Repr

/-- The member `vector::empty()`. -/
def vector.empty (v : vector) : Bool := v.size == 0

/-- The expression `&(v.at(0))`: the address of the first byte, or
`std::out_of_range` when the vector is empty. -/
def vector.at0 (v : vector) : Except Exception Nat :=
  if v.size = 0 then .error (.out_of_range "invalid vector subscript") else .ok v.data

/-- The class `ctNetAdapterAddresses::iterator`: the shared buffer and the
current record (`nullptr` for an end iterator). -/
structure iterator where
  buffer : Option Nat := none
  current : PIP_ADAPTER_ADDRESSES := none
  deriving DecidableEq, Repr

namespace iterator

/-- The defaulted constructor `iterator()`. -/
def default : iterator := { buffer := none, current := none }

/-- The constructor `iterator(std::shared_ptr<std::vector<BYTE>> _ipAdapter)`:
`current` is set to the first byte of the buffer when the pointer is not
empty and the vector is not empty. -/
def ofBuffer (heap : Nat → vector) (_ipAdapter : Option Nat) : iterator :=
  match _ipAdapter with
  | none => { buffer := none, current := none }
  | some b =>
    if !(heap b).empty then { buffer := some b, current := some (heap b).data }
    else { buffer := some b, current := none }

/-- The member `operator*`: a reference to the current record (its address). -/
def deref (this : iterator) : Except Exception Nat :=
  match this.current with
  | none => .error (.out_of_range "out_of_range: ctNetAdapterAddresses::iterator::operator*")
  | some a => .ok a

/-- The member `operator->`: the pointer to the current record. -/
def arrow (this : iterator) : Except Exception PIP_ADAPTER_ADDRESSES :=
  match this.current with
  | none => .error (.out_of_range "out_of_range: ctNetAdapterAddresses::iterator::operator->")
  | some a => .ok (some a)

/-- The member `operator==`. -/
def eq (this _iter : iterator) : Bool :=
  match this.current with
  | none => this.current == _iter.current
  | some _ => (this.buffer == _iter.buffer) && (this.current == _iter.current)

/-- The member `operator!=`. -/
def ne (this _iter : iterator) : Bool := !(this.eq _iter)

/-- The member `operator++()` (pre-increment): the outcome and `*this` afterwards. -/
def preinc (mem : Nat → IP_ADAPTER_ADDRESSES) (this : iterator) :
    Except Exception Unit × iterator :=
  match this.current with
  | none =>
    (.error (.out_of_range "out_of_range: ctNetAdapterAddresses::iterator::operator++"), this)
  | some a => (.ok (), { this with current := (mem a).Next })

/-- The member `operator++(int)` (post-increment): the copy taken before the
increment is returned when the increment does not throw. -/
def postinc (mem : Nat → IP_ADAPTER_ADDRESSES) (this : iterator) :
    Except Exception iterator × iterator :=
  let temp := this
  match preinc mem this with
  | (.error e, this1) => (.error e, this1)
  | (.ok (), this1) => (.ok temp, this1)

/-- The loop of `operator+=`:
`for (unsigned loop = 0; (loop < _inc) && (current != nullptr); ++loop) current = current->Next;`.
`loop < _inc` bounds `loop` below the `DWORD` maximum, so `++loop` never wraps. -/
def plusEqLoop (mem : Nat → IP_ADAPTER_ADDRESSES) (_inc : Nat) (loop : Nat)
    (current : PIP_ADAPTER_ADDRESSES) : PIP_ADAPTER_ADDRESSES :=
  if loop < _inc then
    match current with
    | none => none
    | some a => plusEqLoop mem _inc (loop + 1) (mem a).Next
  else current
termination_by _inc - loop

/-- The member `operator+=(DWORD _inc)`: the outcome and `*this` afterwards. A
`DWORD` is a natural number below `2 ^ 32`; the definition accepts any natural. -/
def plusEq (mem : Nat → IP_ADAPTER_ADDRESSES) (this : iterator) (_inc : Nat) :
    Except Exception Unit × iterator :=
  let this1 : iterator := { this with current := plusEqLoop mem _inc 0 this.current }
  match this1.current with
  | none =>
    (.error (.out_of_range "out_of_range: ctNetAdapterAddresses::iterator::operator+="), this1)
  | some _ => (.ok (), this1)

end iterator

/-- The class `ctNetAdapterAddresses`: its one member, the shared buffer. The
only constructor sets it with `make_shared`, so it is the identity of a
vector object. -/
structure ctNetAdapterAddresses where
  buffer : Nat
  deriving DecidableEq, Repr

/-- The member `begin()`. -/
def ctNetAdapterAddresses.begin (heap : Nat → vector) (this : ctNetAdapterAddresses) : iterator :=
  iterator.ofBuffer heap (some this.buffer)

/-- The member `end()`. -/
def ctNetAdapterAddresses.end_ (_this : ctNetAdapterAddresses) : iterator :=
  iterator.default

/-! ## The matching-address predicate -/

/-- The functor `ctNetAdapterMatchingAddrPredicate`: the captured target. -/
structure ctNetAdapterMatchingAddrPredicate (α : Type) where
  targetAddr : ctSockaddr α

namespace ctNetAdapterMatchingAddrPredicate

variable {α : Type} [DecidableEq α]

/-- The loop of `operator()`, started at `unicastAddress`. One unit of fuel
pays for one evaluation of the loop condition; `none` means the fuel ran out
before the loop returned. -/
def scan (umem : Nat → IP_ADAPTER_UNICAST_ADDRESS α) (this : ctNetAdapterMatchingAddrPredicate α) :
    Nat → PIP_ADAPTER_UNICAST_ADDRESS → Option Bool
  | 0, _ => none
  | _ + 1, none => some false
  | fuel + 1, some u =>
    let unicastSockaddr : ctSockaddr α := { saddr := (umem u).Address }
    if unicastSockaddr = this.targetAddr then some true
    else scan umem this fuel (umem u).Next

/-- The member `operator()(const IP_ADAPTER_ADDRESSES& _ipAddress)`. -/
def call (umem : Nat → IP_ADAPTER_UNICAST_ADDRESS α) (this : ctNetAdapterMatchingAddrPredicate α)
    (fuel : Nat) (_ipAddress : IP_ADAPTER_ADDRESSES) : Option Bool :=
  scan umem this fuel _ipAddress.FirstUnicastAddress

end ctNetAdapterMatchingAddrPredicate

/-- Modelled from the spec: the generic first-match search over an iterator
range (`std::find_if` of the C++ standard library, not under src/):
`for (; first != last; ++first) if (pred(*first)) return first; return last;`.
The predicate reads the record at the dereferenced address and may itself run
out of fuel; one unit of fuel pays for one evaluation of `first != last`. -/
def find_if (mem : Nat → IP_ADAPTER_ADDRESSES) (pred : IP_ADAPTER_ADDRESSES → Option Bool) :
    Nat → iterator → iterator → Option (Except Exception iterator)
  | 0, _, _ => none
  | fuel + 1, first, last =>
    if first.ne last then
      match first.deref with
      | .error e => some (.error e)
      | .ok a =>
        match pred (mem a) with
        | none => none
        | some true => some (.ok first)
        | some false =>
          match first.preinc mem with
          | (.error e, _) => some (.error e)
          | (.ok (), first1) => find_if mem pred fuel first1 last
    else some (.ok last)

/-! ## The platform call and refresh -/

/-- Modelled from the spec: the platform code `NO_ERROR` (winerror.h, not under src/). -/
def NO_ERROR : Nat := 0

/-- Modelled from the spec: the platform code `ERROR_BUFFER_OVERFLOW`, the
buffer-too-small report (winerror.h, not under src/). -/
def ERROR_BUFFER_OVERFLOW : Nat := 111

/-- What one call of `::GetAdaptersAddresses` hands back: the return code, the
value left in `*SizePointer`, and the platform state afterwards. -/
structure GaaResult (σ : Type) where
  err : Nat
  byteSize : Nat
  platform : σ

/-- The collaborators of `refresh`, both opaque: the platform enumeration
function `::GetAdaptersAddresses(Family, Flags, Reserved = nullptr,
AdapterAddresses, SizePointer)` acting on a platform state `σ` (which
includes the bytes it writes), and the allocator, which decides where the
storage of a vector lies after `resize`. -/
structure Env (σ : Type) where
  GetAdaptersAddresses : σ → Nat → Nat → Nat → Nat → GaaResult σ
  reallocate : vector → Nat → Nat

/-- One entry of the trace of platform calls: the arguments passed, the
`size()` of the buffer when the call was made, and what the call handed back. -/
structure GaaCall where
  Family : Nat
  Flags : Nat
  AdapterAddresses : Nat
  SizePointer : Nat
  bufferSize : Nat
  err : Nat
  byteSize : Nat
  deriving DecidableEq, Repr

/-- The state `refresh` runs in: the heap of vector objects, the platform
state, and the trace of the platform calls made so far (oldest first). -/
structure World (σ : Type) where
  heap : Nat → vector
  platform : σ
  calls : List GaaCall

/-- The member `vector::resize(n)`; `newData` is where the allocator puts the
storage. The bytes are not modelled: `refresh` never reads them. -/
def vector.resize (_v : vector) (n : Nat) (newData : Nat) : vector :=
  { data := newData, size := n }

/-- One call `::GetAdaptersAddresses(_family, _gaaFlags, nullptr, p, &byteSize)`
on the buffer `b`, recorded in the trace. -/
def callGaa {σ : Type} (E : Env σ) (w : World σ) (b : Nat) (_family _gaaFlags p byteSize : Nat) :
    GaaResult σ × World σ :=
  let r := E.GetAdaptersAddresses w.platform _family _gaaFlags p byteSize
  (r, { w with
        platform := r.platform
        calls := w.calls ++ [{ Family := _family, Flags := _gaaFlags, AdapterAddresses := p,
                               SizePointer := byteSize, bufferSize := (w.heap b).size,
                               err := r.err, byteSize := r.byteSize }] })

/-- The end of `refresh`: `if (err != NO_ERROR) throw ctException(err, ...)`. -/
def refreshCheck {σ : Type} (err : Nat) (w : World σ) : Except Exception Unit × World σ :=
  if err ≠ NO_ERROR then
    (.error (.ctException err "GetAdaptersAddresses"
      "ctNetAdapterAddresses::ctNetAdapterAddresses" false), w)
  else (.ok (), w)

/-- The member `refresh(_family, _gaaFlags)`: the outcome and the state afterwards. -/
def ctNetAdapterAddresses.refresh {σ : Type} (E : Env σ) (w : World σ)
    (this : ctNetAdapterAddresses) (_family _gaaFlags : Nat) : Except Exception Unit × World σ :=
  let byteSize := (w.heap this.buffer).size % 2 ^ 32
  match (w.heap this.buffer).at0 with
  | .error e => (.error e, w)
  | .ok p =>
    let (r1, w1) := callGaa E w this.buffer _family _gaaFlags p byteSize
    if r1.err = ERROR_BUFFER_OVERFLOW then
      let v := w1.heap this.buffer
      let w2 : World σ :=
        { w1 with heap := Function.update w1.heap this.buffer
                            (v.resize r1.byteSize (E.reallocate v r1.byteSize)) }
      match (w2.heap this.buffer).at0 with
      | .error e => (.error e, w2)
      | .ok p2 =>
        let (r2, w3) := callGaa E w2 this.buffer _family _gaaFlags p2 r1.byteSize
        refreshCheck r2.err w3
    else refreshCheck r1.err w1

/-- The constructor `ctNetAdapterAddresses(_family, _gaaFlags)`: `make_shared`
creates the vector object `b` with 16384 bytes stored at `data` (both chosen
by the allocator), then `refresh` runs; an exception of `refresh` leaves the
constructor. -/
def ctNetAdapterAddresses.ctor {σ : Type} (E : Env σ) (w : World σ) (b data : Nat)
    (_family _gaaFlags : Nat) : Except Exception ctNetAdapterAddresses × World σ :=
  let this : ctNetAdapterAddresses := { buffer := b }
  let w0 : World σ := { w with heap := Function.update w.heap b { data := data, size := 16384 } }
  match this.refresh E w0 _family _gaaFlags with
  | (.error e, w1) => (.error e, w1)
  | (.ok (), w1) => (.ok this, w1)

/-! ## Notions used to state the properties -/

/-- The records `xs` (addresses, in link order) form the null-terminated chain
that starts at pointer `p`: `p` points at the first of them, each `Next`
points at the following one, and the last `Next` is `nullptr`. -/
def isChain (mem : Nat → IP_ADAPTER_ADDRESSES) : PIP_ADAPTER_ADDRESSES → List Nat → Prop
  | p, [] => p = none
  | p, a :: as => p = some a ∧ isChain mem (mem a).Next as

instance isChain.instDecidable (mem : Nat → IP_ADAPTER_ADDRESSES) :
    ∀ (p : PIP_ADAPTER_ADDRESSES) (xs : List Nat), Decidable (isChain mem p xs)
  | p, [] => inferInstanceAs (Decidable (p = none))
  | p, a :: as =>
    have := isChain.instDecidable mem (mem a).Next as
    inferInstanceAs (Decidable (p = some a ∧ isChain mem (mem a).Next as))

/-- Pre-increment applied `k` times in a row, stopping at the first exception. -/
def preincN (mem : Nat → IP_ADAPTER_ADDRESSES) : Nat → iterator → Except Exception Unit × iterator
  | 0, it => (.ok (), it)
  | k + 1, it =>
    match it.preinc mem with
    | (.error e, it1) => (.error e, it1)
    | (.ok (), it1) => preincN mem k it1

/-- The unicast entries `us` (addresses, in link order) form the
null-terminated chain that starts at pointer `p`. -/
def isUnicastChain {α : Type} (umem : Nat → IP_ADAPTER_UNICAST_ADDRESS α) :
    PIP_ADAPTER_UNICAST_ADDRESS → List Nat → Prop
  | p, [] => p = none
  | p, u :: us => p = some u ∧ isUnicastChain umem (umem u).Next us

instance isUnicastChain.instDecidable {α : Type} (umem : Nat → IP_ADAPTER_UNICAST_ADDRESS α) :
    ∀ (p : PIP_ADAPTER_UNICAST_ADDRESS) (us : List Nat), Decidable (isUnicastChain umem p us)
  | p, [] => inferInstanceAs (Decidable (p = none))
  | p, u :: us =>
    have := isUnicastChain.instDecidable umem (umem u).Next us
    inferInstanceAs (Decidable (p = some u ∧ isUnicastChain umem (umem u).Next us))

/-- The unicast entry at address `u` holds an address value-equal to the
target of the predicate. -/
def holdsTarget {α : Type} (umem : Nat → IP_ADAPTER_UNICAST_ADDRESS α)
    (this : ctNetAdapterMatchingAddrPredicate α) (u : Nat) : Prop :=
  ({ saddr := (umem u).Address } : ctSockaddr α) = this.targetAddr

instance holdsTarget.instDecidable {α : Type} [DecidableEq α]
    (umem : Nat → IP_ADAPTER_UNICAST_ADDRESS α) (this : ctNetAdapterMatchingAddrPredicate α)
    (u : Nat) : Decidable (holdsTarget umem this u) :=
  inferInstanceAs (Decidable (({ saddr := (umem u).Address } : ctSockaddr α) = this.targetAddr))

/-- The platform calls made by one `refresh`: what it appended to the trace. -/
def ctNetAdapterAddresses.refreshCalls {σ : Type} (E : Env σ) (w : World σ)
    (this : ctNetAdapterAddresses) (_family _gaaFlags : Nat) : List GaaCall :=
  (this.refresh E w _family _gaaFlags).2.calls.drop w.calls.length

/-- The first platform call of `refresh`, as `refresh` makes it on a non-empty buffer. -/
def firstCall {σ : Type} (E : Env σ) (w : World σ) (this : ctNetAdapterAddresses)
    (_family _gaaFlags : Nat) : GaaResult σ × World σ :=
  callGaa E w this.buffer _family _gaaFlags (w.heap this.buffer).data
    ((w.heap this.buffer).size % 2 ^ 32)

/-- The state after the first call and the `resize` to the size it reported. -/
def resized {σ : Type} (E : Env σ) (w : World σ) (this : ctNetAdapterAddresses)
    (_family _gaaFlags : Nat) : World σ :=
  let r1 := (firstCall E w this _family _gaaFlags).1
  let w1 := (firstCall E w this _family _gaaFlags).2
  { w1 with heap := Function.update w1.heap this.buffer
                      ((w1.heap this.buffer).resize r1.byteSize
                        (E.reallocate (w1.heap this.buffer) r1.byteSize)) }

/-- The retry of `refresh`, as `refresh` makes it on the resized buffer. -/
def secondCall {σ : Type} (E : Env σ) (w : World σ) (this : ctNetAdapterAddresses)
    (_family _gaaFlags : Nat) : GaaResult σ × World σ :=
  callGaa E (resized E w this _family _gaaFlags) this.buffer _family _gaaFlags
    ((resized E w this _family _gaaFlags).heap this.buffer).data
    (firstCall E w this _family _gaaFlags).1.byteSize

/-- The trace entry of the first platform call of `refresh`. -/
def firstRecord {σ : Type} (E : Env σ) (w : World σ) (this : ctNetAdapterAddresses)
    (_family _gaaFlags : Nat) : GaaCall :=
  { Family := _family, Flags := _gaaFlags, AdapterAddresses := (w.heap this.buffer).data,
    SizePointer := (w.heap this.buffer).size % 2 ^ 32, bufferSize := (w.heap this.buffer).size,
    err := (firstCall E w this _family _gaaFlags).1.err,
    byteSize := (firstCall E w this _family _gaaFlags).1.byteSize }

/-- The trace entry of the retry of `refresh`. -/
def secondRecord {σ : Type} (E : Env σ) (w : World σ) (this : ctNetAdapterAddresses)
    (_family _gaaFlags : Nat) : GaaCall :=
  { Family := _family, Flags := _gaaFlags,
    AdapterAddresses := ((resized E w this _family _gaaFlags).heap this.buffer).data,
    SizePointer := (firstCall E w this _family _gaaFlags).1.byteSize,
    bufferSize := ((resized E w this _family _gaaFlags).heap this.buffer).size,
    err := (secondCall E w this _family _gaaFlags).1.err,
    byteSize := (secondCall E w this _family _gaaFlags).1.byteSize }

/-- The state right after `std::make_shared<std::vector<BYTE>>(16384)` in the
constructor: the new vector object `b` has 16384 bytes stored at `data`. -/
def withFreshBuffer {σ : Type} (w : World σ) (b data : Nat) : World σ :=
  { w with heap := Function.update w.heap b { data := data, size := 16384 } }

/-- The enumeration result held in the buffer of the set is the list of
records `xs` (addresses, in link order): a buffer without bytes holds no
record, and otherwise `xs` is the null-terminated chain that starts at the
first byte of the buffer, read in the memory `mem`. -/
def bufferHolds (heap : Nat → vector) (mem : Nat → IP_ADAPTER_ADDRESSES)
    (this : ctNetAdapterAddresses) (xs : List Nat) : Prop :=
  if (heap this.buffer).size = 0 then xs = []
  else isChain mem (some (heap this.buffer).data) xs

instance bufferHolds.instDecidable (heap : Nat → vector) (mem : Nat → IP_ADAPTER_ADDRESSES)
    (this : ctNetAdapterAddresses) (xs : List Nat) : Decidable (bufferHolds heap mem this xs) :=
  inferInstanceAs (Decidable (if (heap this.buffer).size = 0 then xs = []
    else isChain mem (some (heap this.buffer).data) xs))

/-! ## A sample memory

Three adapter records at addresses 1000, 1100 and 1200, linked in that order.
The first has the unicast chain 2000 (address 1.2.3.4); the second has the
chain 2100, 2200 (addresses 5.6.7.8 and 9.9.9.9); the third has none. -/

/-- The adapter records of the sample memory. -/
def sampleAdapters : Nat → IP_ADAPTER_ADDRESSES := fun a =>
  if a = 1000 then { Next := some 1100, FirstUnicastAddress := some 2000 }
  else if a = 1100 then { Next := some 1200, FirstUnicastAddress := some 2100 }
  else { Next := none, FirstUnicastAddress := none }

/-- The unicast entries of the sample memory; an address is its four octets. -/
def sampleUnicast : Nat → IP_ADAPTER_UNICAST_ADDRESS (List Nat) := fun u =>
  if u = 2000 then { Next := none, Address := [1, 2, 3, 4] }
  else if u = 2100 then { Next := some 2200, Address := [5, 6, 7, 8] }
  else { Next := none, Address := [9, 9, 9, 9] }

/-- A heap whose every vector object has 16384 bytes stored at address 1000. -/
def sampleHeap : Nat → vector := fun _ => { data := 1000, size := 16384 }

/-! ## The scenario memory

Adapter A at address 1000 with the unicast chain 2000
(address 1.2.3.4), linked to adapter B at address 1100 with the chain 2100,
2200 (addresses 5.6.7.8 and 9.9.9.9), the last record. The unicast entries
are those of the sample memory. -/

/-- The adapter records of the scenario memory. -/
def scenarioAdapters : Nat → IP_ADAPTER_ADDRESSES := fun a =>
  if a = 1000 then { Next := some 1100, FirstUnicastAddress := some 2000 }
  else { Next := none, FirstUnicastAddress := some 2100 }

/-- The unicast chain of each record of the scenario memory. -/
def scenarioChains : Nat → List Nat := fun a =>
  if a = 1000 then [2000] else [2100, 2200]

/-! ## Sample platforms -/

/-- A state in which every vector object has 16384 bytes and no platform call
has been made yet. -/
def sampleWorld : World Unit := { heap := sampleHeap, platform := (), calls := [] }

/-- A platform that reports buffer-too-small on every call, each time asking
for 4096 bytes more than it was given, and an allocator that never moves the
storage. -/
def growingEnv : Env Unit :=
  { GetAdaptersAddresses := fun _ _ _ _ byteSize =>
      { err := ERROR_BUFFER_OVERFLOW, byteSize := byteSize + 4096, platform := () }
    reallocate := fun v _ => v.data }

/-- A platform that reports buffer-too-small with required size 100 on every
call, and an allocator that never moves the storage. -/
def shrinkingEnv : Env Unit :=
  { GetAdaptersAddresses := fun _ _ _ _ _ =>
      { err := ERROR_BUFFER_OVERFLOW, byteSize := 100, platform := () }
    reallocate := fun v _ => v.data }

/-! ## Lemmas on chains -/

/-- The chain that starts at a pointer is determined by the memory. -/
theorem isChain_unique (mem : Nat → IP_ADAPTER_ADDRESSES) :
    ∀ (xs ys : List Nat) (p : PIP_ADAPTER_ADDRESSES),
      isChain mem p xs → isChain mem p ys → xs = ys
  | [], [], _, _, _ => rfl
  | [], b :: bs, p, hx, hy => by
    simp only [isChain] at hx hy
    rw [hx] at hy
    exact absurd hy.1 (by simp)
  | a :: as, [], p, hx, hy => by
    simp only [isChain] at hx hy
    rw [hy] at hx
    exact absurd hx.1 (by simp)
  | a :: as, b :: bs, p, hx, hy => by
    simp only [isChain] at hx hy
    have hab : a = b := by
      have := hx.1.symm.trans hy.1
      simpa using this
    subst hab
    rw [isChain_unique mem as bs _ hx.2 hy.2]

/-- Every record of a chain starts the chain of the records from it on. -/
theorem isChain_suffix (mem : Nat → IP_ADAPTER_ADDRESSES) :
    ∀ (l1 l2 : List Nat) (a : Nat) (p : PIP_ADAPTER_ADDRESSES),
      isChain mem p (l1 ++ a :: l2) → isChain mem (some a) (a :: l2)
  | [], l2, a, p, h => by
    simp only [List.nil_append, isChain] at h ⊢
    exact ⟨trivial, h.2⟩
  | b :: l1, l2, a, p, h => by
    simp only [List.cons_append, isChain] at h
    exact isChain_suffix mem l1 l2 a _ h.2

/-- No record occurs twice in a null-terminated chain. -/
theorem isChain_nodup (mem : Nat → IP_ADAPTER_ADDRESSES) :
    ∀ (xs : List Nat) (p : PIP_ADAPTER_ADDRESSES), isChain mem p xs → xs.Nodup
  | [], _, _ => List.nodup_nil
  | a :: as, p, h => by
    have h2 : isChain mem (mem a).Next as := by
      simp only [isChain] at h
      exact h.2
    refine List.nodup_cons.mpr ⟨?_, isChain_nodup mem as _ h2⟩
    intro hmem
    obtain ⟨l1, l2, hsplit⟩ := List.append_of_mem hmem
    have hsuf : isChain mem (some a) (a :: l2) := by
      rw [hsplit] at h2
      exact isChain_suffix mem l1 l2 a _ h2
    have hfull : isChain mem (some a) (a :: as) := by
      simp only [isChain] at h ⊢
      exact ⟨trivial, h.2⟩
    have heq := isChain_unique mem _ _ _ hfull hsuf
    have hlen := congrArg List.length heq
    rw [hsplit] at hlen
    simp at hlen
    omega

/-- On a chain, `k` pre-increments (`k` at most the length) all succeed and
leave the iterator on the rest of the chain. -/
theorem preincN_chain (mem : Nat → IP_ADAPTER_ADDRESSES) (b : Option Nat) :
    ∀ (k : Nat) (xs : List Nat) (p : PIP_ADAPTER_ADDRESSES),
      isChain mem p xs → k ≤ xs.length →
      preincN mem k { buffer := b, current := p }
        = (.ok (), { buffer := b, current := (xs.drop k).head? })
  | 0, xs, p, h, _ => by
    cases xs with
    | nil => simp only [isChain] at h; simp [preincN, h]
    | cons a as => simp only [isChain] at h; simp [preincN, h.1]
  | k + 1, [], p, _, hk => by simp at hk
  | k + 1, a :: as, p, h, hk => by
    simp only [isChain] at h
    have hk2 : k ≤ as.length := by simpa using hk
    have ih := preincN_chain mem b k as _ h.2 hk2
    simp only [preincN, iterator.preinc, h.1, List.drop_succ_cons]
    exact ih

/-- On a non-empty buffer `begin()` stands on the first byte. -/
theorem begin_of_nonempty (heap : Nat → vector) (this : ctNetAdapterAddresses)
    (hsize : (heap this.buffer).size ≠ 0) :
    this.begin heap = { buffer := some this.buffer, current := some (heap this.buffer).data } := by
  simp [ctNetAdapterAddresses.begin, iterator.ofBuffer, vector.empty, hsize]

theorem head_drop_of_lt (xs : List Nat) (k : Nat) (hk : k < xs.length) :
    (xs.drop k).head? = some (xs.get ⟨k, hk⟩) := by
  rw [List.head?_drop]
  simp [List.getElem?_eq_getElem hk]

theorem head_drop_length (xs : List Nat) : (xs.drop xs.length).head? = none := by
  simp

/-! ## Iteration from begin() to end() -/

/-- C1: when the buffer of a set is non-empty and the records `xs` form the
null-terminated chain starting at its first byte, then `xs` has at least one
record and no repetition, for every `k` below the length the iterator
obtained from `begin()` by `k` pre-increments (none of which throws)
dereferences to the `k`-th record and differs from `end()`, and after exactly
`xs.length` pre-increments it compares equal to `end()`. -/
theorem C1_begin_preinc_visits_chain (heap : Nat → vector) (mem : Nat → IP_ADAPTER_ADDRESSES)
    (this : ctNetAdapterAddresses) (xs : List Nat)
    (hsize : (heap this.buffer).size ≠ 0)
    (hchain : isChain mem (some (heap this.buffer).data) xs) :
    1 ≤ xs.length ∧ xs.Nodup ∧
    (∀ (k : Nat) (hk : k < xs.length),
      (preincN mem k (this.begin heap)).1 = .ok () ∧
      (preincN mem k (this.begin heap)).2.deref = .ok (xs.get ⟨k, hk⟩) ∧
      (preincN mem k (this.begin heap)).2.eq this.end_ = false) ∧
    (preincN mem xs.length (this.begin heap)).1 = .ok () ∧
    (preincN mem xs.length (this.begin heap)).2.eq this.end_ = true := by
  rw [begin_of_nonempty heap this hsize]
  refine ⟨?_, isChain_nodup mem xs _ hchain, ?_, ?_⟩
  · cases xs with
    | nil => simp [isChain] at hchain
    | cons a as => simp
  · intro k hk
    rw [preincN_chain mem _ k xs _ hchain (Nat.le_of_lt hk), head_drop_of_lt xs k hk]
    simp [iterator.deref, iterator.eq, ctNetAdapterAddresses.end_, iterator.default]
  · rw [preincN_chain mem _ xs.length xs _ hchain (Nat.le_refl _), head_drop_length]
    simp [iterator.eq, ctNetAdapterAddresses.end_, iterator.default]

/-- The sample memory: three records from the first byte of the buffer, and `begin()` reaches `end()` after three pre-increments. -/
theorem C1_witness :
    (sampleHeap (ctNetAdapterAddresses.mk 7).buffer).size ≠ 0 ∧
    isChain sampleAdapters (some (sampleHeap (ctNetAdapterAddresses.mk 7).buffer).data)
      [1000, 1100, 1200] ∧
    (preincN sampleAdapters 3 ((ctNetAdapterAddresses.mk 7).begin sampleHeap)).2.eq
      (ctNetAdapterAddresses.mk 7).end_ = true :=
  ⟨by decide, by decide,
   (C1_begin_preinc_visits_chain sampleHeap sampleAdapters (ctNetAdapterAddresses.mk 7)
      [1000, 1100, 1200] (by decide) (by decide)).2.2.2.2⟩

/-! ## The matching-address predicate -/

/-- On a null-terminated unicast chain the loop of the predicate returns, with
any fuel above the length of the chain, whether some entry holds the target. -/
theorem scan_chain {α : Type} [DecidableEq α] (umem : Nat → IP_ADAPTER_UNICAST_ADDRESS α)
    (this : ctNetAdapterMatchingAddrPredicate α) :
    ∀ (us : List Nat) (p : PIP_ADAPTER_UNICAST_ADDRESS) (fuel : Nat),
      isUnicastChain umem p us → us.length < fuel →
      this.scan umem fuel p = some (decide (∃ u ∈ us, holdsTarget umem this u))
  | [], p, fuel, h, hf => by
    simp only [isUnicastChain] at h
    obtain ⟨f, rfl⟩ : ∃ f, fuel = f + 1 := ⟨fuel - 1, by simp at hf; omega⟩
    simp [ctNetAdapterMatchingAddrPredicate.scan, h]
  | u :: us, p, fuel, h, hf => by
    simp only [isUnicastChain] at h
    obtain ⟨f, rfl⟩ : ∃ f, fuel = f + 1 := ⟨fuel - 1, by simp at hf; omega⟩
    have hf2 : us.length < f := by simp at hf; omega
    have ih := scan_chain umem this us _ f h.2 hf2
    by_cases hu : holdsTarget umem this u
    · have hu2 := hu
      unfold holdsTarget at hu2
      simp [ctNetAdapterMatchingAddrPredicate.scan, h.1, hu2, hu]
    · have hu2 := hu
      unfold holdsTarget at hu2
      simp [ctNetAdapterMatchingAddrPredicate.scan, h.1, hu2, hu, ih]

/-- C2: for every target and every adapter record whose unicast entries `us`
form a null-terminated chain, the predicate returns (with any fuel above the
length of the chain) a boolean that is true if and only if at least one entry
of the chain holds an address value-equal to the target; for a record whose
unicast chain is empty it returns false. -/
theorem C2_predicate_true_iff_some_entry_matches {α : Type} [DecidableEq α]
    (umem : Nat → IP_ADAPTER_UNICAST_ADDRESS α) (this : ctNetAdapterMatchingAddrPredicate α)
    (_ipAddress : IP_ADAPTER_ADDRESSES) (us : List Nat)
    (hchain : isUnicastChain umem _ipAddress.FirstUnicastAddress us) :
    (∀ fuel : Nat, us.length < fuel →
      ∃ b : Bool, this.call umem fuel _ipAddress = some b ∧
        (b = true ↔ ∃ u ∈ us, holdsTarget umem this u)) ∧
    (us = [] → ∀ fuel : Nat, 0 < fuel → this.call umem fuel _ipAddress = some false) := by
  constructor
  · intro fuel hf
    refine ⟨decide (∃ u ∈ us, holdsTarget umem this u), ?_, by simp⟩
    exact scan_chain umem this us _ fuel hchain hf
  · intro hnil fuel hf
    subst hnil
    have := scan_chain umem this [] _ fuel hchain (by simpa using hf)
    simpa [ctNetAdapterMatchingAddrPredicate.call] using this

/-- The sample memory: the record at 1100 has the unicast chain 2100, 2200, and the predicate for 9.9.9.9 returns on it. -/
theorem C2_witness :
    isUnicastChain sampleUnicast (sampleAdapters 1100).FirstUnicastAddress [2100, 2200] ∧
    ∃ b : Bool,
      (ctNetAdapterMatchingAddrPredicate.mk (ctSockaddr.mk [9, 9, 9, 9])).call sampleUnicast 3
          (sampleAdapters 1100) = some b ∧
        (b = true ↔ ∃ u ∈ [2100, 2200],
          holdsTarget sampleUnicast (ctNetAdapterMatchingAddrPredicate.mk (ctSockaddr.mk [9, 9, 9, 9])) u) :=
  ⟨by decide,
   (C2_predicate_true_iff_some_entry_matches sampleUnicast
      (ctNetAdapterMatchingAddrPredicate.mk (ctSockaddr.mk [9, 9, 9, 9])) (sampleAdapters 1100)
      [2100, 2200] (by decide)).1 3 (by decide)⟩

/-! ## refresh -/

theorem resized_size {σ : Type} (E : Env σ) (w : World σ) (this : ctNetAdapterAddresses)
    (_family _gaaFlags : Nat) :
    ((resized E w this _family _gaaFlags).heap this.buffer).size
      = (firstCall E w this _family _gaaFlags).1.byteSize := by
  simp [resized, vector.resize]

/-- The four ways `refresh` can run: empty buffer; first call reporting buffer-too-small with size 0; retry; no retry. -/
theorem refresh_eq {σ : Type} (E : Env σ) (w : World σ) (this : ctNetAdapterAddresses)
    (_family _gaaFlags : Nat) :
    this.refresh E w _family _gaaFlags =
      if (w.heap this.buffer).size = 0 then
        (.error (.out_of_range "invalid vector subscript"), w)
      else if (firstCall E w this _family _gaaFlags).1.err = ERROR_BUFFER_OVERFLOW then
        if (firstCall E w this _family _gaaFlags).1.byteSize = 0 then
          (.error (.out_of_range "invalid vector subscript"), resized E w this _family _gaaFlags)
        else
          refreshCheck (secondCall E w this _family _gaaFlags).1.err
            (secondCall E w this _family _gaaFlags).2
      else
        refreshCheck (firstCall E w this _family _gaaFlags).1.err
          (firstCall E w this _family _gaaFlags).2 := by
  by_cases h0 : (w.heap this.buffer).size = 0
  · simp [ctNetAdapterAddresses.refresh, vector.at0, h0]
  · by_cases h1 : (firstCall E w this _family _gaaFlags).1.err = ERROR_BUFFER_OVERFLOW
    · by_cases h2 : (firstCall E w this _family _gaaFlags).1.byteSize = 0
      · have h1b := h1
        have h2b := h2
        have hs := resized_size E w this _family _gaaFlags
        simp only [firstCall] at h1b h2b
        simp only [if_neg h0, if_pos h1, if_pos h2]
        simp only [ctNetAdapterAddresses.refresh, vector.at0, if_neg h0, if_pos h1b]
        simp only [resized, firstCall, vector.resize, h2b] at hs ⊢
        simp [hs]
      · have h1b := h1
        have h2b := h2
        have hs := resized_size E w this _family _gaaFlags
        simp only [firstCall] at h1b h2b
        simp only [if_neg h0, if_pos h1, if_neg h2]
        simp only [ctNetAdapterAddresses.refresh, vector.at0, if_neg h0, if_pos h1b]
        simp only [Nat.reducePow] at h2b
        simp only [secondCall, resized, firstCall, vector.resize]
        simp [h2b]
    · have h1b := h1
      simp only [firstCall] at h1b
      simp only [if_neg h0, if_neg h1]
      simp only [ctNetAdapterAddresses.refresh, vector.at0, if_neg h0, if_neg h1b, firstCall]

theorem firstCall_calls {σ : Type} (E : Env σ) (w : World σ) (this : ctNetAdapterAddresses)
    (_family _gaaFlags : Nat) :
    (firstCall E w this _family _gaaFlags).2.calls
      = w.calls ++ [firstRecord E w this _family _gaaFlags] := rfl

theorem resized_calls {σ : Type} (E : Env σ) (w : World σ) (this : ctNetAdapterAddresses)
    (_family _gaaFlags : Nat) :
    (resized E w this _family _gaaFlags).calls
      = w.calls ++ [firstRecord E w this _family _gaaFlags] := rfl

theorem secondCall_calls {σ : Type} (E : Env σ) (w : World σ) (this : ctNetAdapterAddresses)
    (_family _gaaFlags : Nat) :
    (secondCall E w this _family _gaaFlags).2.calls
      = w.calls ++ [firstRecord E w this _family _gaaFlags,
                    secondRecord E w this _family _gaaFlags] := by
  show (resized E w this _family _gaaFlags).calls ++ [secondRecord E w this _family _gaaFlags] = _
  rw [resized_calls]
  simp

theorem refreshCheck_world {σ : Type} (err : Nat) (w : World σ) : (refreshCheck err w).2 = w := by
  unfold refreshCheck
  split_ifs <;> rfl

/-- The calls `refresh` makes in each of its four runs. -/
theorem refreshCalls_eq {σ : Type} (E : Env σ) (w : World σ) (this : ctNetAdapterAddresses)
    (_family _gaaFlags : Nat) :
    this.refreshCalls E w _family _gaaFlags =
      if (w.heap this.buffer).size = 0 then []
      else if (firstCall E w this _family _gaaFlags).1.err = ERROR_BUFFER_OVERFLOW then
        if (firstCall E w this _family _gaaFlags).1.byteSize = 0 then
          [firstRecord E w this _family _gaaFlags]
        else [firstRecord E w this _family _gaaFlags, secondRecord E w this _family _gaaFlags]
      else [firstRecord E w this _family _gaaFlags] := by
  unfold ctNetAdapterAddresses.refreshCalls
  rw [refresh_eq]
  split_ifs <;>
    simp [refreshCheck_world, firstCall_calls, resized_calls, secondCall_calls]

/-- The trace after `refresh` is the trace before it followed by the calls it made. -/
theorem refresh_trace {σ : Type} (E : Env σ) (w : World σ) (this : ctNetAdapterAddresses)
    (_family _gaaFlags : Nat) :
    (this.refresh E w _family _gaaFlags).2.calls
      = w.calls ++ this.refreshCalls E w _family _gaaFlags := by
  rw [refreshCalls_eq, refresh_eq]
  split_ifs <;>
    simp [refreshCheck_world, firstCall_calls, resized_calls, secondCall_calls]

/-- The calls of one `refresh`, for any platform: at most two; a second one
exactly when the first call reported buffer-too-small with a size other than
zero; the second one is made on the buffer resized to the reported size, and
its success is the success of `refresh`. -/
theorem refresh_calls_structure {σ : Type} (E : Env σ) (w : World σ)
    (this : ctNetAdapterAddresses) (_family _gaaFlags : Nat) :
    (this.refresh E w _family _gaaFlags).2.calls
      = w.calls ++ this.refreshCalls E w _family _gaaFlags ∧
    (this.refreshCalls E w _family _gaaFlags).length ≤ 2 ∧
    ((this.refreshCalls E w _family _gaaFlags).length = 2 ↔
      ∃ c1, (this.refreshCalls E w _family _gaaFlags).head? = some c1 ∧
        c1.err = ERROR_BUFFER_OVERFLOW ∧ c1.byteSize ≠ 0) ∧
    (∀ c1 c2, this.refreshCalls E w _family _gaaFlags = [c1, c2] →
      c2.bufferSize = c1.byteSize ∧ c2.SizePointer = c1.byteSize ∧
      ((this.refresh E w _family _gaaFlags).2.heap this.buffer).size = c1.byteSize ∧
      (c2.err = NO_ERROR → (this.refresh E w _family _gaaFlags).1 = .ok ())) := by
  refine ⟨refresh_trace E w this _family _gaaFlags, ?_, ?_, ?_⟩
  · rw [refreshCalls_eq]
    split_ifs <;> simp
  · rw [refreshCalls_eq]
    split_ifs with h0 h1 h2
    · simp
    · simp [firstRecord, h2]
    · simp [firstRecord, h1, h2]
    · simp [firstRecord, h1]
  · intro c1 c2
    rw [refreshCalls_eq, refresh_eq]
    split_ifs with h0 h1 h2
    · simp
    · simp
    · intro hcs
      simp only [List.cons.injEq, and_true] at hcs
      obtain ⟨rfl, rfl⟩ := hcs
      refine ⟨?_, rfl, ?_, ?_⟩
      · simp [secondRecord, firstRecord, resized_size]
      · rw [refreshCheck_world]
        show ((resized E w this _family _gaaFlags).heap this.buffer).size = _
        rw [resized_size]
        rfl
      · intro hok
        have hok2 : (secondCall E w this _family _gaaFlags).1.err = NO_ERROR := hok
        simp [refreshCheck, hok2]
    · simp

/-- C3: for every platform whose buffer-too-small reports carry a required
size other than zero, one `refresh` appends at most two platform calls to the
trace (a third call is never made); the second call is made if and only if
the first call reported buffer-too-small; it is made on the buffer resized to
exactly the size the first call reported, with that size as capacity; and
when the second call returns success, `refresh` succeeds. -/
theorem C3_refresh_at_most_two_calls {σ : Type} (E : Env σ) (w : World σ)
    (this : ctNetAdapterAddresses) (_family _gaaFlags : Nat)
    (hreports : ∀ s f g p n, (E.GetAdaptersAddresses s f g p n).err = ERROR_BUFFER_OVERFLOW →
      (E.GetAdaptersAddresses s f g p n).byteSize ≠ 0) :
    (this.refresh E w _family _gaaFlags).2.calls
      = w.calls ++ this.refreshCalls E w _family _gaaFlags ∧
    (this.refreshCalls E w _family _gaaFlags).length ≤ 2 ∧
    ((this.refreshCalls E w _family _gaaFlags).length = 2 ↔
      ∃ c1, (this.refreshCalls E w _family _gaaFlags).head? = some c1 ∧
        c1.err = ERROR_BUFFER_OVERFLOW) ∧
    (∀ c1 c2, this.refreshCalls E w _family _gaaFlags = [c1, c2] →
      c2.bufferSize = c1.byteSize ∧ c2.SizePointer = c1.byteSize ∧
      ((this.refresh E w _family _gaaFlags).2.heap this.buffer).size = c1.byteSize ∧
      (c2.err = NO_ERROR → (this.refresh E w _family _gaaFlags).1 = .ok ())) := by
  have hstruct := refresh_calls_structure E w this _family _gaaFlags
  refine ⟨hstruct.1, hstruct.2.1, ?_, hstruct.2.2.2⟩
  rw [refreshCalls_eq]
  split_ifs with h0 h1 h2
  · simp
  · exact absurd h2 (hreports _ _ _ _ _ h1)
  · have he : (firstRecord E w this _family _gaaFlags).err = ERROR_BUFFER_OVERFLOW := h1
    simp [he]
  · have he : ¬ (firstRecord E w this _family _gaaFlags).err = ERROR_BUFFER_OVERFLOW := h1
    simp [he]

/-- A platform that asks for 4096 bytes more on every call: its
buffer-too-small reports are never zero, and `refresh` on the sample state
makes the first call and the retry. -/
theorem C3_witness :
    (∀ s f g p n, (growingEnv.GetAdaptersAddresses s f g p n).err = ERROR_BUFFER_OVERFLOW →
      (growingEnv.GetAdaptersAddresses s f g p n).byteSize ≠ 0) ∧
    ((ctNetAdapterAddresses.mk 7).refreshCalls growingEnv sampleWorld 0 0).length = 2 ∧
    (((ctNetAdapterAddresses.mk 7).refreshCalls growingEnv sampleWorld 0 0).length = 2 ↔
      ∃ c1, ((ctNetAdapterAddresses.mk 7).refreshCalls growingEnv sampleWorld 0 0).head? = some c1 ∧
        c1.err = ERROR_BUFFER_OVERFLOW) :=
  ⟨fun _ _ _ _ _ _ => by simp [growingEnv], by decide,
   (C3_refresh_at_most_two_calls growingEnv sampleWorld (ctNetAdapterAddresses.mk 7) 0 0
      (fun _ _ _ _ _ _ => by simp [growingEnv])).2.2.1⟩

/-- For any platform, `refresh` fails with a `ctException` exactly when its
first call returned a code that is neither success nor buffer-too-small, or
its retry returned a code other than success; the exception carries the code
of the last call made. -/
theorem refresh_ctException_iff {σ : Type} (E : Env σ) (w : World σ)
    (this : ctNetAdapterAddresses) (_family _gaaFlags : Nat) :
    ((∃ code message location flag, (this.refresh E w _family _gaaFlags).1
        = .error (.ctException code message location flag)) ↔
      ((∃ c1, this.refreshCalls E w _family _gaaFlags = [c1] ∧
          c1.err ≠ NO_ERROR ∧ c1.err ≠ ERROR_BUFFER_OVERFLOW) ∨
       (∃ c1 c2, this.refreshCalls E w _family _gaaFlags = [c1, c2] ∧
          c1.err = ERROR_BUFFER_OVERFLOW ∧ c2.err ≠ NO_ERROR))) ∧
    (∀ code message location flag, (this.refresh E w _family _gaaFlags).1
        = .error (.ctException code message location flag) →
      ∃ c, (this.refreshCalls E w _family _gaaFlags).getLast? = some c ∧ code = c.err) := by
  have hne : ERROR_BUFFER_OVERFLOW ≠ NO_ERROR := by decide
  rw [refreshCalls_eq, refresh_eq]
  split_ifs with h0 h1 h2
  · simp
  · have he : (firstRecord E w this _family _gaaFlags).err = ERROR_BUFFER_OVERFLOW := h1
    simp [he]
  · have he : (firstRecord E w this _family _gaaFlags).err = ERROR_BUFFER_OVERFLOW := h1
    by_cases h3 : (secondCall E w this _family _gaaFlags).1.err = NO_ERROR
    · have he2 : (secondRecord E w this _family _gaaFlags).err = NO_ERROR := h3
      simp [refreshCheck, h3, he2]
    · have he2 : ¬ (secondRecord E w this _family _gaaFlags).err = NO_ERROR := h3
      refine ⟨?_, ?_⟩
      · simp [refreshCheck, h3]
        exact ⟨_, _, ⟨rfl, rfl⟩, he, he2⟩
      · intro code message location flag hc
        simp only [refreshCheck, ne_eq, h3, not_false_eq_true, if_true, Except.error.injEq,
          Exception.ctException.injEq] at hc
        exact ⟨secondRecord E w this _family _gaaFlags, by simp, hc.1.symm⟩
  · have he : ¬ (firstRecord E w this _family _gaaFlags).err = ERROR_BUFFER_OVERFLOW := h1
    by_cases h3 : (firstCall E w this _family _gaaFlags).1.err = NO_ERROR
    · have he2 : (firstRecord E w this _family _gaaFlags).err = NO_ERROR := h3
      simp [refreshCheck, h3, he2]
    · have he2 : ¬ (firstRecord E w this _family _gaaFlags).err = NO_ERROR := h3
      refine ⟨?_, ?_⟩
      · simp [refreshCheck, h3, he2, he]
      · intro code message location flag hc
        simp only [refreshCheck, ne_eq, h3, not_false_eq_true, if_true, Except.error.injEq,
          Exception.ctException.injEq] at hc
        exact ⟨firstRecord E w this _family _gaaFlags, by simp, hc.1.symm⟩

/-- With a platform whose buffer-too-small reports carry a size other than
zero, `refresh` fails with a `ctException` exactly when the last platform
call it made returned a code other than success. -/
theorem refresh_ctException_iff_last_failed {σ : Type} (E : Env σ) (w : World σ)
    (this : ctNetAdapterAddresses) (_family _gaaFlags : Nat)
    (hreports : ∀ s f g p n, (E.GetAdaptersAddresses s f g p n).err = ERROR_BUFFER_OVERFLOW →
      (E.GetAdaptersAddresses s f g p n).byteSize ≠ 0) :
    (∃ code message location flag, (this.refresh E w _family _gaaFlags).1
        = .error (.ctException code message location flag)) ↔
      ∃ c, (this.refreshCalls E w _family _gaaFlags).getLast? = some c ∧ c.err ≠ NO_ERROR := by
  have hne : ERROR_BUFFER_OVERFLOW ≠ NO_ERROR := by decide
  rw [refreshCalls_eq, refresh_eq]
  split_ifs with h0 h1 h2
  · simp
  · exact absurd h2 (hreports _ _ _ _ _ h1)
  · by_cases h3 : (secondCall E w this _family _gaaFlags).1.err = NO_ERROR
    · have he2 : (secondRecord E w this _family _gaaFlags).err = NO_ERROR := h3
      simp [refreshCheck, h3, he2]
    · have he2 : ¬ (secondRecord E w this _family _gaaFlags).err = NO_ERROR := h3
      simp [refreshCheck, h3, he2]
  · by_cases h3 : (firstCall E w this _family _gaaFlags).1.err = NO_ERROR
    · have he2 : (firstRecord E w this _family _gaaFlags).err = NO_ERROR := h3
      simp [refreshCheck, h3, he2]
    · have he2 : ¬ (firstRecord E w this _family _gaaFlags).err = NO_ERROR := h3
      simp [refreshCheck, h3, he2]

/-- C4: `refresh` fails with a `ctException` if and only if its first platform
call returned a code that is neither success nor buffer-too-small, or the
retry after a buffer-too-small report returned a code other than success
(buffer-too-small again included); with a platform whose buffer-too-small
reports carry a required size other than zero, that is if and only if the
last platform call it made did not return success; and the exception carries
the code returned by that last call. -/
theorem C4_refresh_fails_with_ctException_iff {σ : Type} (E : Env σ) (w : World σ)
    (this : ctNetAdapterAddresses) (_family _gaaFlags : Nat) :
    ((∃ code message location flag, (this.refresh E w _family _gaaFlags).1
        = .error (.ctException code message location flag)) ↔
      ((∃ c1, this.refreshCalls E w _family _gaaFlags = [c1] ∧
          c1.err ≠ NO_ERROR ∧ c1.err ≠ ERROR_BUFFER_OVERFLOW) ∨
       (∃ c1 c2, this.refreshCalls E w _family _gaaFlags = [c1, c2] ∧
          c1.err = ERROR_BUFFER_OVERFLOW ∧ c2.err ≠ NO_ERROR))) ∧
    ((∀ s f g p n, (E.GetAdaptersAddresses s f g p n).err = ERROR_BUFFER_OVERFLOW →
        (E.GetAdaptersAddresses s f g p n).byteSize ≠ 0) →
      ((∃ code message location flag, (this.refresh E w _family _gaaFlags).1
          = .error (.ctException code message location flag)) ↔
        ∃ c, (this.refreshCalls E w _family _gaaFlags).getLast? = some c ∧ c.err ≠ NO_ERROR)) ∧
    (∀ code message location flag, (this.refresh E w _family _gaaFlags).1
        = .error (.ctException code message location flag) →
      ∃ c, (this.refreshCalls E w _family _gaaFlags).getLast? = some c ∧ code = c.err) :=
  ⟨(refresh_ctException_iff E w this _family _gaaFlags).1,
   refresh_ctException_iff_last_failed E w this _family _gaaFlags,
   (refresh_ctException_iff E w this _family _gaaFlags).2⟩

/-! ## Iterator operations at and near end() -/

/-- C5: for an iterator at end (no current record), whatever buffer it
references, `operator*`, `operator->` and pre-increment each fail with
`std::out_of_range`; none of them returns a record, and the failed
pre-increment leaves the iterator as it was. -/
theorem C5_end_iterator_operations_throw (mem : Nat → IP_ADAPTER_ADDRESSES) (buffer : Option Nat) :
    (∃ what, ({ buffer := buffer, current := none } : iterator).deref
        = .error (.out_of_range what)) ∧
    (∃ what, ({ buffer := buffer, current := none } : iterator).arrow
        = .error (.out_of_range what)) ∧
    (∃ what, (({ buffer := buffer, current := none } : iterator).preinc mem).1
        = .error (.out_of_range what)) ∧
    (({ buffer := buffer, current := none } : iterator).preinc mem).2
        = { buffer := buffer, current := none } := by
  simp [iterator.deref, iterator.arrow, iterator.preinc]

/-- On a chain, the loop of `operator+=` follows `Next` as many times as `loop`
is below `_inc`, or until the chain ends. -/
theorem plusEqLoop_chain (mem : Nat → IP_ADAPTER_ADDRESSES) (_inc : Nat) :
    ∀ (k : Nat) (xs : List Nat) (p : PIP_ADAPTER_ADDRESSES) (loop : Nat),
      isChain mem p xs → _inc - loop = k →
      iterator.plusEqLoop mem _inc loop p = (xs.drop k).head?
  | 0, xs, p, loop, h, hk => by
    have hlt : ¬ loop < _inc := by omega
    unfold iterator.plusEqLoop
    rw [if_neg hlt]
    cases xs with
    | nil => simp only [isChain] at h; simp [h]
    | cons a as => simp only [isChain] at h; simp [h.1]
  | k + 1, xs, p, loop, h, hk => by
    have hlt : loop < _inc := by omega
    unfold iterator.plusEqLoop
    rw [if_pos hlt]
    cases xs with
    | nil => simp only [isChain] at h; simp [h]
    | cons a as =>
      simp only [isChain] at h
      simp only [h.1, List.drop_succ_cons]
      exact plusEqLoop_chain mem _inc k as _ (loop + 1) h.2 (by omega)

/-- With exactly `xs.length` records remaining, at least one, `operator+=` by
that number leaves the iterator at end and throws. -/
theorem plusEq_exact (mem : Nat → IP_ADAPTER_ADDRESSES) (it : iterator)
    (xs : List Nat) (hchain : isChain mem it.current xs) :
    it.plusEq mem xs.length
      = (.error (.out_of_range "out_of_range: ctNetAdapterAddresses::iterator::operator+="),
         { buffer := it.buffer, current := none }) := by
  have hloop := plusEqLoop_chain mem xs.length xs.length xs it.current 0 hchain (by omega)
  rw [head_drop_length] at hloop
  simp [iterator.plusEq, hloop]

/-- C6 (as the code has it): for every iterator positioned on a record from
which exactly `xs.length` records remain (`xs` is the chain from the current
record, of length at least one), `operator+=` by that number leaves the
iterator at end, with the same buffer reference, and fails with
`std::out_of_range`. -/
theorem C6_plusEq_exact_reaches_end_and_throws (mem : Nat → IP_ADAPTER_ADDRESSES) (it : iterator)
    (xs : List Nat) (hchain : isChain mem it.current xs) (_hpos : 1 ≤ xs.length) :
    (it.plusEq mem xs.length).1
      = .error (.out_of_range "out_of_range: ctNetAdapterAddresses::iterator::operator+=") ∧
    (it.plusEq mem xs.length).2 = { buffer := it.buffer, current := none } ∧
    ((it.plusEq mem xs.length).2.eq iterator.default) = true := by
  rw [plusEq_exact mem it xs hchain]
  simp [iterator.eq, iterator.default]

/-- The sample memory: from the record at 1100 two records remain, and `operator+=` by two leaves the iterator at end. -/
theorem C6_witness :
    isChain sampleAdapters
      (({ buffer := some 7, current := some 1100 } : iterator)).current [1100, 1200] ∧
    (({ buffer := some 7, current := some 1100 } : iterator).plusEq sampleAdapters 2).2
      = { buffer := some 7, current := none } :=
  ⟨by decide,
   (C6_plusEq_exact_reaches_end_and_throws sampleAdapters { buffer := some 7, current := some 1100 }
      [1100, 1200] (by decide) (by decide)).2.1⟩

/-- C6, the claim as stated fails: on the sample chain of three records,
`begin()` has exactly three records remaining, and `operator+=` by three does
not complete without error. -/
theorem C6_counterexample :
    isChain sampleAdapters ((ctNetAdapterAddresses.mk 7).begin sampleHeap).current
      [1000, 1100, 1200] ∧
    (((ctNetAdapterAddresses.mk 7).begin sampleHeap).plusEq sampleAdapters 3).1 ≠ .ok () := by
  refine ⟨by decide, ?_⟩
  have h := plusEq_exact sampleAdapters
    ((ctNetAdapterAddresses.mk 7).begin sampleHeap) [1000, 1100, 1200] (by decide)
  have h3 : ([1000, 1100, 1200] : List Nat).length = 3 := rfl
  rw [h3] at h
  rw [h]
  simp

/-- C7: for every `N` and every iterator from whose current position fewer
than `N` records remain (`xs` is the chain from the current record, possibly
empty), `operator+=` by `N` fails with `std::out_of_range`. -/
theorem C7_plusEq_beyond_chain_throws (mem : Nat → IP_ADAPTER_ADDRESSES) (it : iterator)
    (xs : List Nat) (N : Nat) (hchain : isChain mem it.current xs) (hlt : xs.length < N) :
    (it.plusEq mem N).1
      = .error (.out_of_range "out_of_range: ctNetAdapterAddresses::iterator::operator+=") := by
  have hloop := plusEqLoop_chain mem N N xs it.current 0 hchain (by omega)
  have hnone : (xs.drop N).head? = none := by
    rw [List.drop_eq_nil_of_le (Nat.le_of_lt hlt)]
    rfl
  rw [hnone] at hloop
  simp [iterator.plusEq, hloop]

/-- The sample memory: from the record at 1100 two records remain, and `operator+=` by five throws. -/
theorem C7_witness :
    isChain sampleAdapters
      (({ buffer := some 7, current := some 1100 } : iterator)).current [1100, 1200] ∧
    ([1100, 1200] : List Nat).length < 5 ∧
    (({ buffer := some 7, current := some 1100 } : iterator).plusEq sampleAdapters 5).1
      = .error (.out_of_range "out_of_range: ctNetAdapterAddresses::iterator::operator+=") :=
  ⟨by decide, by decide,
   C7_plusEq_beyond_chain_throws sampleAdapters { buffer := some 7, current := some 1100 }
      [1100, 1200] 5 (by decide) (by decide)⟩

/-! ## begin() against end(), and iterator equality -/

/-- C9: two iterators that are both at end compare equal whatever buffers they
reference; two iterators that are both on a record compare equal if and only
if they reference the same buffer object and the same record; an end iterator
and an iterator on a record never compare equal, in either order; and
`operator!=` is the negation of `operator==`. -/
theorem C9_iterator_equality :
    (∀ b1 b2 : Option Nat,
      ({ buffer := b1, current := none } : iterator).eq { buffer := b2, current := none } = true) ∧
    (∀ (b1 b2 : Option Nat) (a1 a2 : Nat),
      (({ buffer := b1, current := some a1 } : iterator).eq { buffer := b2, current := some a2 }
        = true ↔ b1 = b2 ∧ a1 = a2)) ∧
    (∀ (b1 b2 : Option Nat) (a : Nat),
      ({ buffer := b1, current := none } : iterator).eq { buffer := b2, current := some a } = false ∧
      ({ buffer := b2, current := some a } : iterator).eq { buffer := b1, current := none } = false) ∧
    (∀ x y : iterator, x.ne y = !(x.eq y)) := by
  refine ⟨?_, ?_, ?_, ?_⟩
  · intro b1 b2
    simp [iterator.eq]
  · intro b1 b2 a1 a2
    simp [iterator.eq]
  · intro b1 b2 a
    simp [iterator.eq]
  · intro x y
    rfl

/-! ## First-match search with the matching-address predicate -/

/-- The search stops on the first record of the chain on which the predicate
returns true, when it returns false on every record before it. -/
theorem find_if_first (mem : Nat → IP_ADAPTER_ADDRESSES)
    (pred : IP_ADAPTER_ADDRESSES → Option Bool) (b : Option Nat) :
    ∀ (pre : List Nat) (a : Nat) (post : List Nat) (p : PIP_ADAPTER_ADDRESSES) (fuel : Nat),
      isChain mem p (pre ++ a :: post) → pre.length < fuel →
      (∀ x ∈ pre, pred (mem x) = some false) → pred (mem a) = some true →
      find_if mem pred fuel { buffer := b, current := p } iterator.default
        = some (.ok { buffer := b, current := some a })
  | [], a, post, p, fuel, h, hf, _, ha => by
    simp only [List.nil_append, isChain] at h
    obtain ⟨f, rfl⟩ : ∃ f, fuel = f + 1 := ⟨fuel - 1, by simp at hf; omega⟩
    simp [find_if, iterator.ne, iterator.eq, iterator.default, iterator.deref, h.1, ha]
  | x :: pre, a, post, p, fuel, h, hf, hpre, ha => by
    simp only [List.cons_append, isChain] at h
    obtain ⟨f, rfl⟩ : ∃ f, fuel = f + 1 := ⟨fuel - 1, by simp at hf; omega⟩
    have hf2 : pre.length < f := by simp at hf; omega
    have hx : pred (mem x) = some false := hpre x (by simp)
    have ih := find_if_first mem pred b pre a post _ f h.2 hf2
      (fun y hy => hpre y (by simp [hy])) ha
    simp only [iterator.default] at ih
    simp [find_if, iterator.ne, iterator.eq, iterator.default, iterator.deref,
      iterator.preinc, h.1, hx, ih]

/-- The search returns `last` when the predicate returns false on every record
of the chain. -/
theorem find_if_none (mem : Nat → IP_ADAPTER_ADDRESSES)
    (pred : IP_ADAPTER_ADDRESSES → Option Bool) (b : Option Nat) :
    ∀ (xs : List Nat) (p : PIP_ADAPTER_ADDRESSES) (fuel : Nat),
      isChain mem p xs → xs.length < fuel →
      (∀ x ∈ xs, pred (mem x) = some false) →
      find_if mem pred fuel { buffer := b, current := p } iterator.default
        = some (.ok iterator.default)
  | [], p, fuel, h, hf, _ => by
    simp only [isChain] at h
    obtain ⟨f, rfl⟩ : ∃ f, fuel = f + 1 := ⟨fuel - 1, by simp at hf; omega⟩
    simp [find_if, iterator.ne, iterator.eq, iterator.default, h]
  | x :: xs, p, fuel, h, hf, hall => by
    simp only [isChain] at h
    obtain ⟨f, rfl⟩ : ∃ f, fuel = f + 1 := ⟨fuel - 1, by simp at hf; omega⟩
    have hf2 : xs.length < f := by simp at hf; omega
    have hx : pred (mem x) = some false := hall x (by simp)
    have ih := find_if_none mem pred b xs _ f h.2 hf2 (fun y hy => hall y (by simp [hy]))
    simp only [iterator.default] at ih
    simp [find_if, iterator.ne, iterator.eq, iterator.default, iterator.deref,
      iterator.preinc, h.1, hx, ih]

/-- C10: when the buffer of a set is non-empty, the records `xs` form the
null-terminated chain starting at its first byte and each of them has a
null-terminated unicast chain (`chains a`), the first-match search with the
matching-address predicate over `[begin(), end())` returns, with enough fuel,
the iterator on the first record in link order whose unicast chain holds the
target, and returns `end()` when no record holds it. -/
theorem C10_find_if_returns_first_match {α : Type} [DecidableEq α]
    (heap : Nat → vector) (mem : Nat → IP_ADAPTER_ADDRESSES)
    (umem : Nat → IP_ADAPTER_UNICAST_ADDRESS α) (this : ctNetAdapterAddresses)
    (P : ctNetAdapterMatchingAddrPredicate α) (xs : List Nat) (chains : Nat → List Nat)
    (pfuel fuel : Nat)
    (hsize : (heap this.buffer).size ≠ 0)
    (hchain : isChain mem (some (heap this.buffer).data) xs)
    (hunicast : ∀ a ∈ xs,
      isUnicastChain umem (mem a).FirstUnicastAddress (chains a) ∧ (chains a).length < pfuel)
    (hfuel : xs.length < fuel) :
    (∀ (pre : List Nat) (a : Nat) (post : List Nat), xs = pre ++ a :: post →
      (∀ x ∈ pre, ¬ ∃ u ∈ chains x, holdsTarget umem P u) →
      (∃ u ∈ chains a, holdsTarget umem P u) →
      find_if mem (P.call umem pfuel) fuel (this.begin heap) this.end_
        = some (.ok { buffer := some this.buffer, current := some a })) ∧
    ((∀ x ∈ xs, ¬ ∃ u ∈ chains x, holdsTarget umem P u) →
      find_if mem (P.call umem pfuel) fuel (this.begin heap) this.end_
        = some (.ok this.end_)) := by
  have hpred : ∀ x ∈ xs, P.call umem pfuel (mem x)
      = some (decide (∃ u ∈ chains x, holdsTarget umem P u)) := fun x hx =>
    scan_chain umem P (chains x) _ pfuel (hunicast x hx).1 (hunicast x hx).2
  rw [begin_of_nonempty heap this hsize]
  refine ⟨?_, ?_⟩
  · intro pre a post hsplit hpre ha
    subst hsplit
    refine find_if_first mem _ _ pre a post _ fuel hchain (by simp at hfuel; omega) ?_ ?_
    · intro x hx
      rw [hpred x (by simp [hx])]
      simpa using hpre x hx
    · rw [hpred a (by simp)]
      simpa using ha
  · intro hall
    refine find_if_none mem _ _ xs _ fuel hchain hfuel ?_
    intro x hx
    rw [hpred x hx]
    simpa using hall x hx

/-- The scenario: adapters A (1.2.3.4) and B (5.6.7.8, 9.9.9.9); the search for 5.6.7.8 returns the iterator on B, the search for 1.1.1.1 returns `end()`. -/
theorem C10_witness :
    isChain scenarioAdapters (some (sampleHeap (ctNetAdapterAddresses.mk 7).buffer).data)
      [1000, 1100] ∧
    find_if scenarioAdapters
        ((ctNetAdapterMatchingAddrPredicate.mk (ctSockaddr.mk [5, 6, 7, 8])).call sampleUnicast 3) 3
        ((ctNetAdapterAddresses.mk 7).begin sampleHeap) (ctNetAdapterAddresses.mk 7).end_
      = some (.ok { buffer := some 7, current := some 1100 }) ∧
    find_if scenarioAdapters
        ((ctNetAdapterMatchingAddrPredicate.mk (ctSockaddr.mk [1, 1, 1, 1])).call sampleUnicast 3) 3
        ((ctNetAdapterAddresses.mk 7).begin sampleHeap) (ctNetAdapterAddresses.mk 7).end_
      = some (.ok (ctNetAdapterAddresses.mk 7).end_) :=
  ⟨by decide,
   (C10_find_if_returns_first_match sampleHeap scenarioAdapters sampleUnicast
      (ctNetAdapterAddresses.mk 7) (ctNetAdapterMatchingAddrPredicate.mk (ctSockaddr.mk [5, 6, 7, 8]))
      [1000, 1100] scenarioChains 3 3 (by decide) (by decide) (by decide) (by decide)).1
      [1000] 1100 [] rfl (by decide) (by decide),
   (C10_find_if_returns_first_match sampleHeap scenarioAdapters sampleUnicast
      (ctNetAdapterAddresses.mk 7) (ctNetAdapterMatchingAddrPredicate.mk (ctSockaddr.mk [1, 1, 1, 1]))
      [1000, 1100] scenarioChains 3 3 (by decide) (by decide) (by decide) (by decide)).2
      (by decide)⟩

/-! ## The buffer across a refresh -/

/-- The heap after `refresh`: changed only by the `resize` that follows a
buffer-too-small report of the first call. -/
theorem refresh_heap {σ : Type} (E : Env σ) (w : World σ) (this : ctNetAdapterAddresses)
    (_family _gaaFlags : Nat) :
    (this.refresh E w _family _gaaFlags).2.heap =
      if (w.heap this.buffer).size = 0 then w.heap
      else if (firstCall E w this _family _gaaFlags).1.err = ERROR_BUFFER_OVERFLOW then
        (resized E w this _family _gaaFlags).heap
      else w.heap := by
  rw [refresh_eq]
  split_ifs <;> first | rfl | (rw [refreshCheck_world]; rfl)

/-- The `resize` of `refresh` touches no other vector object. -/
theorem resized_heap_other {σ : Type} (E : Env σ) (w : World σ) (this : ctNetAdapterAddresses)
    (_family _gaaFlags : Nat) (b : Nat) (hb : b ≠ this.buffer) :
    (resized E w this _family _gaaFlags).heap b = w.heap b := by
  simp [resized, firstCall, callGaa, Function.update, hb]

/-- On a non-empty buffer, with a platform whose buffer-too-small reports carry
a size other than zero, `refresh` reaches the platform, never fails with
`std::out_of_range`, and succeeds exactly when the last platform call it made
returned success. -/
theorem refresh_runs_protocol {σ : Type} (E : Env σ) (w : World σ)
    (this : ctNetAdapterAddresses) (_family _gaaFlags : Nat)
    (hsize : (w.heap this.buffer).size ≠ 0)
    (hreports : ∀ s f g p n, (E.GetAdaptersAddresses s f g p n).err = ERROR_BUFFER_OVERFLOW →
      (E.GetAdaptersAddresses s f g p n).byteSize ≠ 0) :
    this.refreshCalls E w _family _gaaFlags ≠ [] ∧
    (∀ what, (this.refresh E w _family _gaaFlags).1 ≠ .error (.out_of_range what)) ∧
    ((this.refresh E w _family _gaaFlags).1 = .ok () ↔
      ∃ c, (this.refreshCalls E w _family _gaaFlags).getLast? = some c ∧ c.err = NO_ERROR) := by
  rw [refreshCalls_eq, refresh_eq, if_neg hsize, if_neg hsize]
  split_ifs with h1 h2
  · exact absurd h2 (hreports _ _ _ _ _ h1)
  · by_cases h3 : (secondCall E w this _family _gaaFlags).1.err = NO_ERROR
    · have he2 : (secondRecord E w this _family _gaaFlags).err = NO_ERROR := h3
      simp [refreshCheck, h3, he2]
    · have he2 : ¬ (secondRecord E w this _family _gaaFlags).err = NO_ERROR := h3
      simp [refreshCheck, h3, he2]
  · by_cases h3 : (firstCall E w this _family _gaaFlags).1.err = NO_ERROR
    · have he2 : (firstRecord E w this _family _gaaFlags).err = NO_ERROR := h3
      simp [refreshCheck, h3, he2]
    · have he2 : ¬ (firstRecord E w this _family _gaaFlags).err = NO_ERROR := h3
      simp [refreshCheck, h3, he2]

/-- When the buffer-too-small reports of the platform ask for more than they
were given, `refresh` never leaves the buffer smaller than it found it. -/
theorem refresh_size_ge {σ : Type} (E : Env σ) (w : World σ)
    (this : ctNetAdapterAddresses) (_family _gaaFlags : Nat)
    (hulong : (w.heap this.buffer).size < 2 ^ 32)
    (hcontract : ∀ s f g p n, (E.GetAdaptersAddresses s f g p n).err = ERROR_BUFFER_OVERFLOW →
      n < (E.GetAdaptersAddresses s f g p n).byteSize) :
    (w.heap this.buffer).size ≤ ((this.refresh E w _family _gaaFlags).2.heap this.buffer).size := by
  rw [refresh_heap]
  split_ifs with h0 h1
  · exact Nat.le_refl _
  · rw [resized_size]
    have hlt : (w.heap this.buffer).size % 2 ^ 32
        < (firstCall E w this _family _gaaFlags).1.byteSize := hcontract _ _ _ _ _ h1
    rw [Nat.mod_eq_of_lt hulong] at hlt
    exact Nat.le_of_lt hlt
  · exact Nat.le_refl _

/-- The size of the buffer changes across `refresh` only after a
buffer-too-small report of the first call. -/
theorem refresh_size_changes_only_after_overflow {σ : Type} (E : Env σ) (w : World σ)
    (this : ctNetAdapterAddresses) (_family _gaaFlags : Nat)
    (hchange : ((this.refresh E w _family _gaaFlags).2.heap this.buffer).size
      ≠ (w.heap this.buffer).size) :
    ∃ c1, (this.refreshCalls E w _family _gaaFlags).head? = some c1 ∧
      c1.err = ERROR_BUFFER_OVERFLOW ∧
      ((this.refresh E w _family _gaaFlags).2.heap this.buffer).size = c1.byteSize := by
  revert hchange
  rw [refresh_heap, refreshCalls_eq]
  split_ifs with h0 h1 h2
  · simp
  · intro _
    exact ⟨_, rfl, h1, resized_size E w this _family _gaaFlags⟩
  · intro _
    exact ⟨_, rfl, h1, resized_size E w this _family _gaaFlags⟩
  · simp

/-- With the platform that asks for 4096 bytes more on every call, `refresh`
on the sample state fails with the exception of the retry. -/
theorem growingEnv_refresh :
    ((ctNetAdapterAddresses.mk 7).refresh growingEnv sampleWorld 0 0).1
      = .error (.ctException ERROR_BUFFER_OVERFLOW "GetAdaptersAddresses"
          "ctNetAdapterAddresses::ctNetAdapterAddresses" false) := rfl

/-- C11: for every set state (the buffer non-empty and of a `ULONG` size, as it
is from construction on) and every platform whose buffer-too-small reports
ask for more than they were given, if `refresh` fails then it fails with a
`ctException`, the size of the buffer afterwards is at least its size
before, and differs from it only if the first platform call reported
buffer-too-small (it is then the size that call reported); no other vector
object changes; and the set can be refreshed again: the buffer is still
non-empty, so a further `refresh` reaches the platform, never fails on its
buffer indexing, and succeeds exactly when the last platform call it makes
returns success. -/
theorem C11_failed_refresh_never_shrinks_buffer {σ : Type} (E : Env σ) (w : World σ)
    (this : ctNetAdapterAddresses) (_family _gaaFlags : Nat)
    (hnonempty : (w.heap this.buffer).size ≠ 0)
    (hulong : (w.heap this.buffer).size < 2 ^ 32)
    (hcontract : ∀ s f g p n, (E.GetAdaptersAddresses s f g p n).err = ERROR_BUFFER_OVERFLOW →
      n < (E.GetAdaptersAddresses s f g p n).byteSize)
    (hfail : (this.refresh E w _family _gaaFlags).1 ≠ .ok ()) :
    (∃ code message location flag, (this.refresh E w _family _gaaFlags).1
        = .error (.ctException code message location flag)) ∧
    (w.heap this.buffer).size ≤ ((this.refresh E w _family _gaaFlags).2.heap this.buffer).size ∧
    (((this.refresh E w _family _gaaFlags).2.heap this.buffer).size ≠ (w.heap this.buffer).size →
      ∃ c1, (this.refreshCalls E w _family _gaaFlags).head? = some c1 ∧
        c1.err = ERROR_BUFFER_OVERFLOW ∧
        ((this.refresh E w _family _gaaFlags).2.heap this.buffer).size = c1.byteSize) ∧
    (∀ b, b ≠ this.buffer → (this.refresh E w _family _gaaFlags).2.heap b = w.heap b) ∧
    ((this.refresh E w _family _gaaFlags).2.heap this.buffer).size ≠ 0 ∧
    (∀ family2 flags2 : Nat,
      this.refreshCalls E (this.refresh E w _family _gaaFlags).2 family2 flags2 ≠ [] ∧
      (∀ what, (this.refresh E (this.refresh E w _family _gaaFlags).2 family2 flags2).1
        ≠ .error (.out_of_range what)) ∧
      ((this.refresh E (this.refresh E w _family _gaaFlags).2 family2 flags2).1 = .ok () ↔
        ∃ c, (this.refreshCalls E (this.refresh E w _family _gaaFlags).2 family2 flags2).getLast?
          = some c ∧ c.err = NO_ERROR)) := by
  have hreports : ∀ s f g p n, (E.GetAdaptersAddresses s f g p n).err = ERROR_BUFFER_OVERFLOW →
      (E.GetAdaptersAddresses s f g p n).byteSize ≠ 0 := by
    intro s f g p n h
    have := hcontract s f g p n h
    omega
  have hge := refresh_size_ge E w this _family _gaaFlags hulong hcontract
  have hne : ((this.refresh E w _family _gaaFlags).2.heap this.buffer).size ≠ 0 := by
    omega
  have hrun := refresh_runs_protocol E w this _family _gaaFlags hnonempty hreports
  refine ⟨?_, hge, refresh_size_changes_only_after_overflow E w this _family _gaaFlags, ?_, hne,
    fun family2 flags2 => refresh_runs_protocol E _ this family2 flags2 hne hreports⟩
  · cases hres : (this.refresh E w _family _gaaFlags).1 with
    | ok u => exact absurd (by rw [hres]) hfail
    | error e =>
      cases e with
      | out_of_range what => exact absurd hres (hrun.2.1 what)
      | ctException code message location flag => exact ⟨code, message, location, flag, rfl⟩
  · intro b hb
    rw [refresh_heap]
    split_ifs
    · rfl
    · exact resized_heap_other E w this _family _gaaFlags b hb
    · rfl

/-- A platform that asks for 4096 bytes more on every call: `refresh` fails on
the sample buffer of 16384 bytes and leaves it with the 20480 bytes the first
call asked for. -/
theorem C11_witness :
    (sampleWorld.heap (ctNetAdapterAddresses.mk 7).buffer).size ≠ 0 ∧
    (sampleWorld.heap (ctNetAdapterAddresses.mk 7).buffer).size < 2 ^ 32 ∧
    (∀ s f g p n, (growingEnv.GetAdaptersAddresses s f g p n).err = ERROR_BUFFER_OVERFLOW →
      n < (growingEnv.GetAdaptersAddresses s f g p n).byteSize) ∧
    ((ctNetAdapterAddresses.mk 7).refresh growingEnv sampleWorld 0 0).1 ≠ .ok () ∧
    (((ctNetAdapterAddresses.mk 7).refresh growingEnv sampleWorld 0 0).2.heap
      (ctNetAdapterAddresses.mk 7).buffer).size = 20480 ∧
    (sampleWorld.heap (ctNetAdapterAddresses.mk 7).buffer).size ≤
      (((ctNetAdapterAddresses.mk 7).refresh growingEnv sampleWorld 0 0).2.heap
        (ctNetAdapterAddresses.mk 7).buffer).size :=
  ⟨by decide, by decide, fun _ _ _ _ _ _ => by simp [growingEnv],
   by simp [growingEnv_refresh], by decide,
   (C11_failed_refresh_never_shrinks_buffer growingEnv sampleWorld (ctNetAdapterAddresses.mk 7)
      0 0 (by decide) (by decide) (fun _ _ _ _ _ _ => by simp [growingEnv])
      (by simp [growingEnv_refresh])).2.1⟩

/-! ## Equality along a traversal, bulk advance, post-increment -/

/-- The member `operator==` is reflexive. -/
theorem iterator_eq_refl (x : iterator) : x.eq x = true := by
  cases hx : x.current <;> simp [iterator.eq, hx]

/-- C12: when the records `xs` form the null-terminated chain from the position
of `begin()` (the empty chain when the buffer is empty), two iterators
obtained from `begin()` on the set and each pre-incremented `k` times, for any
`k` up to the number of records, both advance without error and compare equal
to each other in both argument orders; at `k = xs.length` both compare equal
to `end()`; and `end()` obtained from any two sets compare equal. -/
theorem C12_identically_advanced_iterators_equal (heap : Nat → vector)
    (mem : Nat → IP_ADAPTER_ADDRESSES) (this : ctNetAdapterAddresses) (xs : List Nat)
    (it1 it2 : iterator) (h1 : it1 = this.begin heap) (h2 : it2 = this.begin heap)
    (hchain : isChain mem (this.begin heap).current xs) :
    (∀ k : Nat, k ≤ xs.length →
      (preincN mem k it1).1 = .ok () ∧ (preincN mem k it2).1 = .ok () ∧
      (preincN mem k it1).2.eq (preincN mem k it2).2 = true ∧
      (preincN mem k it2).2.eq (preincN mem k it1).2 = true) ∧
    ((preincN mem xs.length it1).2.eq this.end_ = true ∧
     (preincN mem xs.length it2).2.eq this.end_ = true) ∧
    (∀ s1 s2 : ctNetAdapterAddresses, s1.end_.eq s2.end_ = true ∧ s2.end_.eq s1.end_ = true) := by
  subst h1 h2
  have hrun : ∀ k : Nat, k ≤ xs.length →
      preincN mem k (this.begin heap)
        = (.ok (), { buffer := (this.begin heap).buffer, current := (xs.drop k).head? }) :=
    fun k hk => preincN_chain mem (this.begin heap).buffer k xs _ hchain hk
  refine ⟨?_, ?_, ?_⟩
  · intro k hk
    rw [hrun k hk]
    exact ⟨rfl, rfl, iterator_eq_refl _, iterator_eq_refl _⟩
  · rw [hrun xs.length (Nat.le_refl _), head_drop_length]
    simp [iterator.eq, ctNetAdapterAddresses.end_, iterator.default]
  · intro s1 s2
    simp [iterator.eq, ctNetAdapterAddresses.end_, iterator.default]

/-- The sample memory: two iterators from `begin()`, each pre-incremented three
times along the three records, compare equal to `end()`. -/
theorem C12_witness :
    isChain sampleAdapters ((ctNetAdapterAddresses.mk 7).begin sampleHeap).current
      [1000, 1100, 1200] ∧
    (preincN sampleAdapters 3 ((ctNetAdapterAddresses.mk 7).begin sampleHeap)).2.eq
      (ctNetAdapterAddresses.mk 7).end_ = true :=
  ⟨by decide,
   (C12_identically_advanced_iterators_equal sampleHeap sampleAdapters (ctNetAdapterAddresses.mk 7)
      [1000, 1100, 1200] _ _ rfl rfl (by decide)).2.1.1⟩

/-- C13: for every `N`, zero included, `operator+=` by `N` applied to an
iterator that is already at end fails with `std::out_of_range`, whatever
buffer the iterator references. -/
theorem C13_plusEq_at_end_throws (mem : Nat → IP_ADAPTER_ADDRESSES) (buffer : Option Nat)
    (N : Nat) :
    (({ buffer := buffer, current := none } : iterator).plusEq mem N).1
      = .error (.out_of_range "out_of_range: ctNetAdapterAddresses::iterator::operator+=") := by
  have hchain : isChain mem none [] := by simp [isChain]
  have hloop := plusEqLoop_chain mem N N [] none 0 hchain (by omega)
  simp at hloop
  simp [iterator.plusEq, hloop]

/-- C16: for every `N` and every iterator from whose current record strictly
more than `N` records remain (`xs` is the chain from the current record),
`operator+=` by `N` succeeds and leaves the iterator in exactly the state
reached by `N` successive pre-increments, none of which throws: the same
buffer reference, and the `N`-th record of `xs` as current record; for
`N = 0` the iterator is unchanged. -/
theorem C16_plusEq_refines_repeated_preinc (mem : Nat → IP_ADAPTER_ADDRESSES) (it : iterator)
    (xs : List Nat) (N : Nat) (hchain : isChain mem it.current xs) (hlt : N < xs.length) :
    it.plusEq mem N = (.ok (), (preincN mem N it).2) ∧
    (preincN mem N it).1 = .ok () ∧
    (it.plusEq mem N).2 = { buffer := it.buffer, current := some (xs.get ⟨N, hlt⟩) } ∧
    (N = 0 → (it.plusEq mem N).2 = it) := by
  have hloop := plusEqLoop_chain mem N N xs it.current 0 hchain (by omega)
  rw [head_drop_of_lt xs N hlt] at hloop
  have hpre := preincN_chain mem it.buffer N xs it.current hchain (Nat.le_of_lt hlt)
  rw [head_drop_of_lt xs N hlt] at hpre
  have hit : ({ buffer := it.buffer, current := it.current } : iterator) = it := rfl
  rw [hit] at hpre
  have hplus : it.plusEq mem N
      = (.ok (), { buffer := it.buffer, current := some (xs.get ⟨N, hlt⟩) }) := by
    simp [iterator.plusEq, hloop]
  refine ⟨by rw [hplus, hpre], by rw [hpre], by rw [hplus], ?_⟩
  intro h0
  subst h0
  rw [hplus]
  cases xs with
  | nil => simp at hlt
  | cons a as =>
    simp only [isChain] at hchain
    cases it with
    | mk b c =>
      simp only at hchain
      simp [hchain.1]

/-- The sample memory: from `begin()` three records remain, and `operator+=`
by two lands where two pre-increments do. -/
theorem C16_witness :
    isChain sampleAdapters ((ctNetAdapterAddresses.mk 7).begin sampleHeap).current
      [1000, 1100, 1200] ∧
    ((ctNetAdapterAddresses.mk 7).begin sampleHeap).plusEq sampleAdapters 2
      = (.ok (), (preincN sampleAdapters 2 ((ctNetAdapterAddresses.mk 7).begin sampleHeap)).2) :=
  ⟨by decide,
   (C16_plusEq_refines_repeated_preinc sampleAdapters ((ctNetAdapterAddresses.mk 7).begin sampleHeap)
      [1000, 1100, 1200] 2 (by decide) (by decide)).1⟩

/-- C17: the member `operator==` is an equivalence relation on all iterator
states, whatever the buffer reference and whether or not there is a current
record: it is reflexive, symmetric and transitive. -/
theorem C17_iterator_eq_equivalence :
    (∀ x : iterator, x.eq x = true) ∧
    (∀ x y : iterator, x.eq y = true → y.eq x = true) ∧
    (∀ x y z : iterator, x.eq y = true → y.eq z = true → x.eq z = true) := by
  refine ⟨iterator_eq_refl, ?_, ?_⟩
  · intro x y hxy
    cases x with
    | mk bx cx =>
      cases y with
      | mk bz cy =>
        cases cx <;> cases cy <;> simp_all [iterator.eq]
  · intro x y z hxy hyz
    cases x with
    | mk bx cx =>
      cases y with
      | mk bz cy =>
        cases z with
        | mk bz cz =>
          cases cx <;> cases cy <;> cases cz <;> simp_all [iterator.eq]

/-- C18: whenever `operator+=` fails, the exception is `std::out_of_range` and
the iterator it was applied to is left at end: no current record, comparing
equal to `end()`, its buffer reference unchanged; an iterator that stood on
a record is therefore not left at its position before the call. -/
theorem C18_plusEq_failure_leaves_end (mem : Nat → IP_ADAPTER_ADDRESSES) (it : iterator)
    (N : Nat) (e : Exception) (hfail : (it.plusEq mem N).1 = .error e) :
    e = .out_of_range "out_of_range: ctNetAdapterAddresses::iterator::operator+=" ∧
    (it.plusEq mem N).2 = { buffer := it.buffer, current := none } ∧
    (it.plusEq mem N).2.eq iterator.default = true ∧
    (it.current ≠ none → (it.plusEq mem N).2 ≠ it) := by
  cases hloop : iterator.plusEqLoop mem N 0 it.current with
  | some a => simp [iterator.plusEq, hloop] at hfail
  | none =>
    have hplus : it.plusEq mem N
        = (.error (.out_of_range "out_of_range: ctNetAdapterAddresses::iterator::operator+="),
           { buffer := it.buffer, current := none }) := by
      simp [iterator.plusEq, hloop]
    rw [hplus] at hfail ⊢
    simp only [Except.error.injEq] at hfail
    refine ⟨hfail.symm, rfl, by simp [iterator.eq, iterator.default], ?_⟩
    intro hcur heq
    exact hcur (by rw [← heq])

/-- The sample memory: from the record at 1100 two records remain, `operator+=`
by two fails and leaves the iterator at end. -/
theorem C18_witness :
    (({ buffer := some 7, current := some 1100 } : iterator).plusEq sampleAdapters 2).1
      = .error (.out_of_range "out_of_range: ctNetAdapterAddresses::iterator::operator+=") ∧
    (({ buffer := some 7, current := some 1100 } : iterator).plusEq sampleAdapters 2).2
      = { buffer := some 7, current := none } :=
  ⟨congrArg Prod.fst (plusEq_exact sampleAdapters { buffer := some 7, current := some 1100 }
      [1100, 1200] (by decide)),
   (C18_plusEq_failure_leaves_end sampleAdapters { buffer := some 7, current := some 1100 } 2 _
      (congrArg Prod.fst (plusEq_exact sampleAdapters { buffer := some 7, current := some 1100 }
        [1100, 1200] (by decide)))).2.1⟩

/-- C20: applied to an iterator positioned on a record, post-increment returns
the iterator as it was before the call (equal to it under `operator==`) and
leaves the iterator in the state that pre-increment produces; applied to an
iterator at end it fails with `std::out_of_range` and leaves the iterator
unchanged. -/
theorem C20_postinc (mem : Nat → IP_ADAPTER_ADDRESSES) (b : Option Nat) :
    (∀ a : Nat,
      (({ buffer := b, current := some a } : iterator).postinc mem).1
        = .ok { buffer := b, current := some a } ∧
      (({ buffer := b, current := some a } : iterator).eq { buffer := b, current := some a })
        = true ∧
      (({ buffer := b, current := some a } : iterator).postinc mem).2
        = (({ buffer := b, current := some a } : iterator).preinc mem).2 ∧
      (({ buffer := b, current := some a } : iterator).preinc mem).1 = .ok ()) ∧
    (({ buffer := b, current := none } : iterator).postinc mem).1
      = .error (.out_of_range "out_of_range: ctNetAdapterAddresses::iterator::operator++") ∧
    (({ buffer := b, current := none } : iterator).postinc mem).2
      = { buffer := b, current := none } := by
  refine ⟨?_, ?_, ?_⟩
  · intro a
    simp [iterator.postinc, iterator.preinc, iterator.eq]
  · simp [iterator.postinc, iterator.preinc]
  · simp [iterator.postinc, iterator.preinc]

/-! ## Construction, arguments of the platform calls, buffer indexing -/

/-- The constructor runs `refresh` on the state with the fresh buffer. -/
theorem ctor_eq {σ : Type} (E : Env σ) (w : World σ) (b data : Nat) (_family _gaaFlags : Nat) :
    ctNetAdapterAddresses.ctor E w b data _family _gaaFlags =
      match (ctNetAdapterAddresses.mk b).refresh E (withFreshBuffer w b data) _family _gaaFlags with
      | (.error e, w1) => (.error e, w1)
      | (.ok (), w1) => (.ok (ctNetAdapterAddresses.mk b), w1) := rfl

/-- C14: constructing a set with `(_family, _gaaFlags)` is `refresh(_family,
_gaaFlags)` run on the freshly allocated buffer of 16384 bytes: the state
afterwards is the one `refresh` leaves, a first platform call is made and is
given the capacity 16384 on a buffer of 16384 bytes with the caller's family
and flags, construction succeeds if and only if that `refresh` succeeds, and
it fails with exactly the exception that `refresh` fails with. -/
theorem C14_ctor_is_refresh_on_fresh_16384_buffer {σ : Type} (E : Env σ) (w : World σ)
    (b data : Nat) (_family _gaaFlags : Nat) :
    ((withFreshBuffer w b data).heap b).size = 16384 ∧
    (ctNetAdapterAddresses.ctor E w b data _family _gaaFlags).2
      = ((ctNetAdapterAddresses.mk b).refresh E (withFreshBuffer w b data) _family _gaaFlags).2 ∧
    (∃ c1, ((ctNetAdapterAddresses.mk b).refreshCalls E (withFreshBuffer w b data)
          _family _gaaFlags).head? = some c1 ∧
      c1.SizePointer = 16384 ∧ c1.bufferSize = 16384 ∧
      c1.Family = _family ∧ c1.Flags = _gaaFlags) ∧
    ((ctNetAdapterAddresses.ctor E w b data _family _gaaFlags).1 = .ok (ctNetAdapterAddresses.mk b) ↔
      ((ctNetAdapterAddresses.mk b).refresh E (withFreshBuffer w b data) _family _gaaFlags).1
        = .ok ()) ∧
    (∀ e : Exception,
      (ctNetAdapterAddresses.ctor E w b data _family _gaaFlags).1 = .error e ↔
      ((ctNetAdapterAddresses.mk b).refresh E (withFreshBuffer w b data) _family _gaaFlags).1
        = .error e) := by
  have hsz : ((withFreshBuffer w b data).heap b).size = 16384 := by
    simp [withFreshBuffer]
  have hsz0 : ¬ ((withFreshBuffer w b data).heap (ctNetAdapterAddresses.mk b).buffer).size = 0 := by
    show ¬ ((withFreshBuffer w b data).heap b).size = 0
    rw [hsz]
    decide
  refine ⟨hsz, ?_, ?_, ?_, ?_⟩
  · rw [ctor_eq]
    rcases hres : (ctNetAdapterAddresses.mk b).refresh E (withFreshBuffer w b data)
        _family _gaaFlags with ⟨r, w1⟩
    cases r with
    | error e => rfl
    | ok u => cases u; rfl
  · refine ⟨firstRecord E (withFreshBuffer w b data) (ctNetAdapterAddresses.mk b)
        _family _gaaFlags, ?_, ?_, ?_, rfl, rfl⟩
    · rw [refreshCalls_eq, if_neg hsz0]
      split_ifs <;> rfl
    · show ((withFreshBuffer w b data).heap b).size % 2 ^ 32 = 16384
      rw [hsz]
      decide
    · exact hsz
  · rw [ctor_eq]
    rcases hres : (ctNetAdapterAddresses.mk b).refresh E (withFreshBuffer w b data)
        _family _gaaFlags with ⟨r, w1⟩
    cases r with
    | error e => simp
    | ok u => cases u; simp
  · intro e
    rw [ctor_eq]
    rcases hres : (ctNetAdapterAddresses.mk b).refresh E (withFreshBuffer w b data)
        _family _gaaFlags with ⟨r, w1⟩
    cases r with
    | error e2 => simp
    | ok u => cases u; simp

/-- The size of the buffer stays below `2 ^ 32` across `refresh` when the sizes
the platform reports are `ULONG` values. -/
theorem refresh_size_lt {σ : Type} (E : Env σ) (w : World σ) (this : ctNetAdapterAddresses)
    (_family _gaaFlags : Nat) (hsize : (w.heap this.buffer).size < 2 ^ 32)
    (hulong : ∀ s f g p n, (E.GetAdaptersAddresses s f g p n).byteSize < 2 ^ 32) :
    ((this.refresh E w _family _gaaFlags).2.heap this.buffer).size < 2 ^ 32 := by
  rw [refresh_heap]
  split_ifs
  · exact hsize
  · rw [resized_size]
    exact hulong _ _ _ _ _
  · exact hsize

/-- C15: every platform call made by `refresh(_family, _gaaFlags)`, the first
call and the retry alike, receives exactly the caller's family and flags, and
receives as capacity the size of the buffer at the time of that call. The
size of the buffer is a `ULONG` value (it is created with 16384 bytes and
only ever resized to a size the platform reported), which the
`static_cast<ULONG>` of the first call leaves as it is. -/
theorem C15_platform_calls_receive_arguments_unmodified {σ : Type} (E : Env σ) (w : World σ)
    (this : ctNetAdapterAddresses) (_family _gaaFlags : Nat)
    (hsize : (w.heap this.buffer).size < 2 ^ 32) :
    ∀ c ∈ this.refreshCalls E w _family _gaaFlags,
      c.Family = _family ∧ c.Flags = _gaaFlags ∧ c.SizePointer = c.bufferSize := by
  have hfirst : (firstRecord E w this _family _gaaFlags).Family = _family ∧
      (firstRecord E w this _family _gaaFlags).Flags = _gaaFlags ∧
      (firstRecord E w this _family _gaaFlags).SizePointer
        = (firstRecord E w this _family _gaaFlags).bufferSize :=
    ⟨rfl, rfl, Nat.mod_eq_of_lt hsize⟩
  have hsecond : (secondRecord E w this _family _gaaFlags).Family = _family ∧
      (secondRecord E w this _family _gaaFlags).Flags = _gaaFlags ∧
      (secondRecord E w this _family _gaaFlags).SizePointer
        = (secondRecord E w this _family _gaaFlags).bufferSize :=
    ⟨rfl, rfl, (resized_size E w this _family _gaaFlags).symm⟩
  intro c hc
  rw [refreshCalls_eq] at hc
  split_ifs at hc
  · simp at hc
  · simp only [List.mem_singleton] at hc
    rw [hc]
    exact hfirst
  · simp only [List.mem_cons, List.mem_singleton, List.not_mem_nil, or_false] at hc
    rcases hc with hc | hc
    · rw [hc]
      exact hfirst
    · rw [hc]
      exact hsecond
  · simp only [List.mem_singleton] at hc
    rw [hc]
    exact hfirst

/-- A platform that keeps reporting buffer-too-small with size 100: both calls
of `refresh(2, 16)` on the sample state receive family 2 and flags 16, and
the size of the buffer as capacity. -/
theorem C15_witness :
    (sampleWorld.heap (ctNetAdapterAddresses.mk 7).buffer).size < 2 ^ 32 ∧
    ((ctNetAdapterAddresses.mk 7).refreshCalls shrinkingEnv sampleWorld 2 16).length = 2 ∧
    ∀ c ∈ (ctNetAdapterAddresses.mk 7).refreshCalls shrinkingEnv sampleWorld 2 16,
      c.Family = 2 ∧ c.Flags = 16 ∧ c.SizePointer = c.bufferSize :=
  ⟨by decide, by decide,
   C15_platform_calls_receive_arguments_unmodified shrinkingEnv sampleWorld
      (ctNetAdapterAddresses.mk 7) 2 16 (by decide)⟩

/-- C19: on a set whose buffer is non-empty, with a platform whose
buffer-too-small reports always carry a required size other than zero,
`refresh` never fails with the `std::out_of_range` of its buffer indexing:
it succeeds or fails with a `ctException`, and the buffer is non-empty
afterwards. -/
theorem C19_refresh_never_indexes_empty_buffer {σ : Type} (E : Env σ) (w : World σ)
    (this : ctNetAdapterAddresses) (_family _gaaFlags : Nat)
    (hsize : (w.heap this.buffer).size ≠ 0)
    (hreports : ∀ s f g p n, (E.GetAdaptersAddresses s f g p n).err = ERROR_BUFFER_OVERFLOW →
      (E.GetAdaptersAddresses s f g p n).byteSize ≠ 0) :
    (∀ what, (this.refresh E w _family _gaaFlags).1 ≠ .error (.out_of_range what)) ∧
    ((this.refresh E w _family _gaaFlags).1 = .ok () ∨
      ∃ code message location flag, (this.refresh E w _family _gaaFlags).1
        = .error (.ctException code message location flag)) ∧
    ((this.refresh E w _family _gaaFlags).2.heap this.buffer).size ≠ 0 := by
  have hfirst : (firstCall E w this _family _gaaFlags).1.err = ERROR_BUFFER_OVERFLOW →
      (firstCall E w this _family _gaaFlags).1.byteSize ≠ 0 := fun h => hreports _ _ _ _ _ h
  have hcheck : ∀ (err : Nat) (w1 : World σ),
      (∀ what, (refreshCheck err w1).1 ≠ .error (.out_of_range what)) ∧
      ((refreshCheck err w1).1 = .ok () ∨
        ∃ code message location flag, (refreshCheck err w1).1
          = .error (.ctException code message location flag)) := by
    intro err w1
    unfold refreshCheck
    split_ifs <;> simp
  refine ⟨?_, ?_, ?_⟩
  · rw [refresh_eq, if_neg hsize]
    split_ifs with h1 h2
    · exact absurd h2 (hfirst h1)
    · exact (hcheck _ _).1
    · exact (hcheck _ _).1
  · rw [refresh_eq, if_neg hsize]
    split_ifs with h1 h2
    · exact absurd h2 (hfirst h1)
    · exact (hcheck _ _).2
    · exact (hcheck _ _).2
  · rw [refresh_heap, if_neg hsize]
    split_ifs with h1
    · rw [resized_size]
      exact hfirst h1
    · exact hsize

/-- A platform that keeps reporting buffer-too-small with size 100: `refresh`
on the sample state fails, never with `std::out_of_range`, and leaves a
non-empty buffer. -/
theorem C19_witness :
    (sampleWorld.heap (ctNetAdapterAddresses.mk 7).buffer).size ≠ 0 ∧
    (∀ s f g p n, (shrinkingEnv.GetAdaptersAddresses s f g p n).err = ERROR_BUFFER_OVERFLOW →
      (shrinkingEnv.GetAdaptersAddresses s f g p n).byteSize ≠ 0) ∧
    (((ctNetAdapterAddresses.mk 7).refresh shrinkingEnv sampleWorld 0 0).2.heap
      (ctNetAdapterAddresses.mk 7).buffer).size ≠ 0 :=
  ⟨by decide, fun _ _ _ _ _ _ => by simp [shrinkingEnv],
   (C19_refresh_never_indexes_empty_buffer shrinkingEnv sampleWorld (ctNetAdapterAddresses.mk 7)
      0 0 (by decide) (fun _ _ _ _ _ _ => by simp [shrinkingEnv])).2.2⟩

end ctl
